import Mathlib

/-!
# FlaxEngine `Matrix` (Source/Engine/Core/Math/Matrix.cpp)

A shallow embedding of the 4x4 matrix routines of `Matrix.cpp` and proofs of
their specified properties.

The C++ code computes with `float`.  The embedding computes in exact
arithmetic: every definition is polymorphic in a linearly ordered field `K`
(instantiated at `ℚ` for evaluation and at `ℝ` for the real-number reading).
The helpers `Math::Cos`, `Math::Sin` and `Math::Sqrt` are declared in `Math.h`,
outside `Matrix.cpp`; the routines that call them take them as function
parameters, and each theorem states the properties of them it relies on.
-/

/-- The mathematical 4x4 matrices over `K` (Mathlib), the reference model. -/
abbrev Mat4 (K : Type) : Type := Matrix (Fin 4) (Fin 4) K

namespace FlaxEngine

/-- `Vector3`: three components `X`, `Y`, `Z` (`Raw[0..2]`). -/
@[ext] structure Vector3 (K : Type) where
  X : K
  Y : K
  Z : K
deriving DecidableEq

/-- `Vector4`: four components `X`, `Y`, `Z`, `W` (`Raw[0..3]`). -/
@[ext] structure Vector4 (K : Type) where
  X : K
  Y : K
  Z : K
  W : K
deriving DecidableEq

/-- `Quaternion`: four components `X`, `Y`, `Z`, `W`. -/
@[ext] structure Quaternion (K : Type) where
  X : K
  Y : K
  Z : K
  W : K
deriving DecidableEq

/-- `Matrix`: sixteen scalars, `Mrc` is row `r`, column `c` (row-major storage,
so `Values[i][j]` is `M(i+1)(j+1)`). -/
@[ext] structure Matrix (K : Type) where
  M11 : K
  M12 : K
  M13 : K
  M14 : K
  M21 : K
  M22 : K
  M23 : K
  M24 : K
  M31 : K
  M32 : K
  M33 : K
  M34 : K
  M41 : K
  M42 : K
  M43 : K
  M44 : K
deriving DecidableEq

set_option linter.unusedSectionVars false

variable {K : Type} [LinearOrderedField K]

namespace Vector3

/-- Modelled from the spec: `Vector3::Cross`, declared in `Vector3.h` (not among
the sources); the spec lists it as the cross product of the vector primitives. -/
def Cross (a b : Vector3 K) : Vector3 K :=
  ⟨a.Y * b.Z - a.Z * b.Y, a.Z * b.X - a.X * b.Z, a.X * b.Y - a.Y * b.X⟩

/-- Modelled from the spec: `Vector3::Dot`, declared in `Vector3.h` (not among
the sources); the dot product of the vector primitives. -/
def Dot (a b : Vector3 K) : K :=
  a.X * b.X + a.Y * b.Y + a.Z * b.Z

/-- Modelled from the spec: `Vector3::IsAnyZero`, declared in `Vector3.h` (not
among the sources).  The spec reads the test in `Decompose` as "any recovered
scale component is exactly zero". -/
def IsAnyZero (v : Vector3 K) : Bool :=
  decide (v.X = 0) || decide (v.Y = 0) || decide (v.Z = 0)

end Vector3

namespace Matrix

/-- `Matrix::Zero` (Matrix.cpp line 11). -/
def Zero : Matrix K :=
  ⟨0, 0, 0, 0, 0, 0, 0, 0, 0, 0, 0, 0, 0, 0, 0, 0⟩

/-- `Matrix::Identity` (Matrix.cpp lines 12-16). -/
def Identity : Matrix K :=
  ⟨1, 0, 0, 0,
   0, 1, 0, 0,
   0, 0, 1, 0,
   0, 0, 0, 1⟩

/-- Modelled from the spec: the `Values[4][4]` view of the sixteen scalars, a
union member declared in `Matrix.h` (not among the sources).  The spec's data
model is row-major: `Values[i][j]` is row `i`, column `j` (zero-based). -/
def Values (m : Matrix K) : Fin 4 → Fin 4 → K :=
  ![![m.M11, m.M12, m.M13, m.M14],
    ![m.M21, m.M22, m.M23, m.M24],
    ![m.M31, m.M32, m.M33, m.M34],
    ![m.M41, m.M42, m.M43, m.M44]]

/-- The mathematical matrix denoted by a `Matrix` value. -/
def toMat (m : Matrix K) : Mat4 K :=
  Matrix.of m.Values

/-- `Matrix::GetDeterminant` (Matrix.cpp lines 23-34). -/
def GetDeterminant (m : Matrix K) : K :=
  let temp1 := m.M33 * m.M44 - m.M34 * m.M43
  let temp2 := m.M32 * m.M44 - m.M34 * m.M42
  let temp3 := m.M32 * m.M43 - m.M33 * m.M42
  let temp4 := m.M31 * m.M44 - m.M34 * m.M41
  let temp5 := m.M31 * m.M43 - m.M33 * m.M41
  let temp6 := m.M31 * m.M42 - m.M32 * m.M41
  m.M11 * (m.M22 * temp1 - m.M23 * temp2 + m.M24 * temp3) - m.M12 * (m.M21 * temp1 -
    m.M23 * temp4 + m.M24 * temp5) + m.M13 * (m.M21 * temp2 - m.M22 * temp4 + m.M24 * temp6) -
    m.M14 * (m.M21 * temp3 - m.M22 * temp5 + m.M23 * temp6)

/-- `Matrix::RotDeterminant` (Matrix.cpp lines 36-42). -/
def RotDeterminant (m : Matrix K) : K :=
  m.Values 0 0 * (m.Values 1 1 * m.Values 2 2 - m.Values 1 2 * m.Values 2 1) -
  m.Values 1 0 * (m.Values 0 1 * m.Values 2 2 - m.Values 0 2 * m.Values 2 1) +
  m.Values 2 0 * (m.Values 0 1 * m.Values 1 2 - m.Values 0 2 * m.Values 1 1)

/-- `Matrix::Transpose(const Matrix&)`, the value-returning overload
(Matrix.cpp lines 134-154). -/
def Transpose (value : Matrix K) : Matrix K :=
  { M11 := value.M11, M12 := value.M21, M13 := value.M31, M14 := value.M41,
    M21 := value.M12, M22 := value.M22, M23 := value.M32, M24 := value.M42,
    M31 := value.M13, M32 := value.M23, M33 := value.M33, M34 := value.M43,
    M41 := value.M14, M42 := value.M24, M43 := value.M34, M44 := value.M44 }

/-- `Matrix::Transpose(const Matrix&, Matrix&)`, the output-parameter overload
(Matrix.cpp lines 156-176).  The second argument is the previous content of
`result`; the function fills a temporary from `value` and then assigns it to
`result`, and the returned matrix is the new content of `result`. -/
def TransposeOut (value : Matrix K) (_result : Matrix K) : Matrix K :=
  let temp : Matrix K :=
    { M11 := value.M11, M12 := value.M21, M13 := value.M31, M14 := value.M41,
      M21 := value.M12, M22 := value.M22, M23 := value.M32, M24 := value.M42,
      M31 := value.M13, M32 := value.M23, M33 := value.M33, M34 := value.M43,
      M41 := value.M14, M42 := value.M24, M43 := value.M34, M44 := value.M44 }
  temp

/-- The determinant that `Matrix::Invert` computes before its degeneracy test
(Matrix.cpp lines 180-192). -/
def InvertDet (value : Matrix K) : K :=
  let b0 := value.M31 * value.M42 - value.M32 * value.M41
  let b1 := value.M31 * value.M43 - value.M33 * value.M41
  let b2 := value.M34 * value.M41 - value.M31 * value.M44
  let b3 := value.M32 * value.M43 - value.M33 * value.M42
  let b4 := value.M34 * value.M42 - value.M32 * value.M44
  let b5 := value.M33 * value.M44 - value.M34 * value.M43
  let d11 := value.M22 * b5 + value.M23 * b4 + value.M24 * b3
  let d12 := value.M21 * b5 + value.M23 * b2 + value.M24 * b1
  let d13 := value.M21 * -b4 + value.M22 * b2 + value.M24 * b0
  let d14 := value.M21 * b3 + value.M22 * -b1 + value.M23 * b0
  value.M11 * d11 - value.M12 * d12 + value.M13 * d13 - value.M14 * d14

/-- `Matrix::Invert` (Matrix.cpp lines 178-239).  The returned matrix is the
content of `result` after the call: `Zero` on the degenerate branch, and all
sixteen entries freshly written otherwise.  The threshold is the literal
`1e-12f`, read as the exact number `10⁻¹²`. -/
def Invert (value : Matrix K) : Matrix K :=
  let b0 := value.M31 * value.M42 - value.M32 * value.M41
  let b1 := value.M31 * value.M43 - value.M33 * value.M41
  let b2 := value.M34 * value.M41 - value.M31 * value.M44
  let b3 := value.M32 * value.M43 - value.M33 * value.M42
  let b4 := value.M34 * value.M42 - value.M32 * value.M44
  let b5 := value.M33 * value.M44 - value.M34 * value.M43
  let d11 := value.M22 * b5 + value.M23 * b4 + value.M24 * b3
  let d12 := value.M21 * b5 + value.M23 * b2 + value.M24 * b1
  let d13 := value.M21 * -b4 + value.M22 * b2 + value.M24 * b0
  let d14 := value.M21 * b3 + value.M22 * -b1 + value.M23 * b0
  let det := value.M11 * d11 - value.M12 * d12 + value.M13 * d13 - value.M14 * d14
  if |det| ≤ 1 / 10 ^ 12 then
    Zero
  else
    let det := 1 / det
    let a0 := value.M11 * value.M22 - value.M12 * value.M21
    let a1 := value.M11 * value.M23 - value.M13 * value.M21
    let a2 := value.M14 * value.M21 - value.M11 * value.M24
    let a3 := value.M12 * value.M23 - value.M13 * value.M22
    let a4 := value.M14 * value.M22 - value.M12 * value.M24
    let a5 := value.M13 * value.M24 - value.M14 * value.M23
    let d21 := value.M12 * b5 + value.M13 * b4 + value.M14 * b3
    let d22 := value.M11 * b5 + value.M13 * b2 + value.M14 * b1
    let d23 := value.M11 * -b4 + value.M12 * b2 + value.M14 * b0
    let d24 := value.M11 * b3 + value.M12 * -b1 + value.M13 * b0
    let d31 := value.M42 * a5 + value.M43 * a4 + value.M44 * a3
    let d32 := value.M41 * a5 + value.M43 * a2 + value.M44 * a1
    let d33 := value.M41 * -a4 + value.M42 * a2 + value.M44 * a0
    let d34 := value.M41 * a3 + value.M42 * -a1 + value.M43 * a0
    let d41 := value.M32 * a5 + value.M33 * a4 + value.M34 * a3
    let d42 := value.M31 * a5 + value.M33 * a2 + value.M34 * a1
    let d43 := value.M31 * -a4 + value.M32 * a2 + value.M34 * a0
    let d44 := value.M31 * a3 + value.M32 * -a1 + value.M33 * a0
    { M11 := d11 * det, M12 := -d21 * det, M13 := d31 * det, M14 := -d41 * det,
      M21 := -d12 * det, M22 := d22 * det, M23 := -d32 * det, M24 := d42 * det,
      M31 := d13 * det, M32 := -d23 * det, M33 := d33 * det, M34 := -d43 * det,
      M41 := -d14 * det, M42 := d24 * det, M43 := -d34 * det, M44 := d44 * det }

/-- Modelled from the spec: the matrix product `operator*` / `Matrix::Multiply`,
declared in `Matrix.h` (not among the sources).  The spec fixes it as the
standard row-by-column product: entry `(i, j)` of `a * b` is the dot product of
row `i` of `a` with column `j` of `b`. -/
def Multiply (a b : Matrix K) : Matrix K :=
  { M11 := a.M11 * b.M11 + a.M12 * b.M21 + a.M13 * b.M31 + a.M14 * b.M41,
    M12 := a.M11 * b.M12 + a.M12 * b.M22 + a.M13 * b.M32 + a.M14 * b.M42,
    M13 := a.M11 * b.M13 + a.M12 * b.M23 + a.M13 * b.M33 + a.M14 * b.M43,
    M14 := a.M11 * b.M14 + a.M12 * b.M24 + a.M13 * b.M34 + a.M14 * b.M44,
    M21 := a.M21 * b.M11 + a.M22 * b.M21 + a.M23 * b.M31 + a.M24 * b.M41,
    M22 := a.M21 * b.M12 + a.M22 * b.M22 + a.M23 * b.M32 + a.M24 * b.M42,
    M23 := a.M21 * b.M13 + a.M22 * b.M23 + a.M23 * b.M33 + a.M24 * b.M43,
    M24 := a.M21 * b.M14 + a.M22 * b.M24 + a.M23 * b.M34 + a.M24 * b.M44,
    M31 := a.M31 * b.M11 + a.M32 * b.M21 + a.M33 * b.M31 + a.M34 * b.M41,
    M32 := a.M31 * b.M12 + a.M32 * b.M22 + a.M33 * b.M32 + a.M34 * b.M42,
    M33 := a.M31 * b.M13 + a.M32 * b.M23 + a.M33 * b.M33 + a.M34 * b.M43,
    M34 := a.M31 * b.M14 + a.M32 * b.M24 + a.M33 * b.M34 + a.M34 * b.M44,
    M41 := a.M41 * b.M11 + a.M42 * b.M21 + a.M43 * b.M31 + a.M44 * b.M41,
    M42 := a.M41 * b.M12 + a.M42 * b.M22 + a.M43 * b.M32 + a.M44 * b.M42,
    M43 := a.M41 * b.M13 + a.M42 * b.M23 + a.M43 * b.M33 + a.M44 * b.M43,
    M44 := a.M41 * b.M14 + a.M42 * b.M24 + a.M43 * b.M34 + a.M44 * b.M44 }

/-- `Matrix::RotationX` (Matrix.cpp lines 344-353); `cos` and `sin` stand for
`Math::Cos` and `Math::Sin`. -/
def RotationX (cos sin : K → K) (angle : K) : Matrix K :=
  let cosA := cos angle
  let sinA := sin angle
  { (Identity : Matrix K) with M22 := cosA, M23 := sinA, M32 := -sinA, M33 := cosA }

/-- `Matrix::RotationY` (Matrix.cpp lines 355-364). -/
def RotationY (cos sin : K → K) (angle : K) : Matrix K :=
  let cosA := cos angle
  let sinA := sin angle
  { (Identity : Matrix K) with M11 := cosA, M13 := -sinA, M31 := sinA, M33 := cosA }

/-- `Matrix::RotationZ` (Matrix.cpp lines 366-375). -/
def RotationZ (cos sin : K → K) (angle : K) : Matrix K :=
  let cosA := cos angle
  let sinA := sin angle
  { (Identity : Matrix K) with M11 := cosA, M12 := sinA, M21 := -sinA, M22 := cosA }

/-- `Matrix::RotationAxis` (Matrix.cpp lines 377-401). -/
def RotationAxis (cos sin : K → K) (axis : Vector3 K) (angle : K) : Matrix K :=
  let x := axis.X
  let y := axis.Y
  let z := axis.Z
  let cosA := cos angle
  let sinA := sin angle
  let xx := x * x
  let yy := y * y
  let zz := z * z
  let xy := x * y
  let xz := x * z
  let yz := y * z
  { (Identity : Matrix K) with
    M11 := xx + cosA * (1 - xx),
    M12 := xy - cosA * xy + sinA * z,
    M13 := xz - cosA * xz - sinA * y,
    M21 := xy - cosA * xy - sinA * z,
    M22 := yy + cosA * (1 - yy),
    M23 := yz - cosA * yz + sinA * x,
    M31 := xz - cosA * xz + sinA * y,
    M32 := yz - cosA * yz - sinA * x,
    M33 := zz + cosA * (1 - zz) }

/-- `Matrix::RotationQuaternion` (Matrix.cpp lines 403-434). -/
def RotationQuaternion (rotation : Quaternion K) : Matrix K :=
  let xx := rotation.X * rotation.X
  let yy := rotation.Y * rotation.Y
  let zz := rotation.Z * rotation.Z
  let xy := rotation.X * rotation.Y
  let zw := rotation.Z * rotation.W
  let zx := rotation.Z * rotation.X
  let yw := rotation.Y * rotation.W
  let yz := rotation.Y * rotation.Z
  let xw := rotation.X * rotation.W
  { M11 := 1 - 2 * (yy + zz), M12 := 2 * (xy + zw), M13 := 2 * (zx - yw), M14 := 0,
    M21 := 2 * (xy - zw), M22 := 1 - 2 * (zz + xx), M23 := 2 * (yz + xw), M24 := 0,
    M31 := 2 * (zx + yw), M32 := 2 * (yz - xw), M33 := 1 - 2 * (yy + xx), M34 := 0,
    M41 := 0, M42 := 0, M43 := 0, M44 := 1 }

/-- `Matrix::Translation(const Vector3&)`, the value-returning overload
(Matrix.cpp lines 443-450). -/
def Translation (value : Vector3 K) : Matrix K :=
  { (Identity : Matrix K) with M41 := value.X, M42 := value.Y, M43 := value.Z }

/-- `Matrix::Translation(const Vector3&, Matrix&)` (Matrix.cpp lines 452-458);
the second argument is the previous content of `result`. -/
def TranslationOut (value : Vector3 K) (_result : Matrix K) : Matrix K :=
  { (Identity : Matrix K) with M41 := value.X, M42 := value.Y, M43 := value.Z }

/-- `Matrix::Translation(float, float, float, Matrix&)` (Matrix.cpp lines
460-466); the last argument is the previous content of `result`. -/
def TranslationXYZ (x y z : K) (_result : Matrix K) : Matrix K :=
  { (Identity : Matrix K) with M41 := x, M42 := y, M43 := z }

/-- Modelled from the spec: `Matrix::Scaling(const Vector3&)`, declared in
`Matrix.h` (not among the sources): the diagonal scale on the 3x3 block, that
is the diagonal matrix `diag(s.X, s.Y, s.Z, 1)`. -/
def Scaling (scale : Vector3 K) : Matrix K :=
  { (Identity : Matrix K) with M11 := scale.X, M22 := scale.Y, M33 := scale.Z }

/-- `Matrix::Transformation(const Vector3&, const Quaternion&, const Vector3&,
Matrix&)` (Matrix.cpp lines 501-551).  Every entry of `result` is written, the
nine entries of the linear block twice (rotation value, then `*=` by the scale);
the returned matrix is the content of `result` after the call. -/
def Transformation (scaling : Vector3 K) (rotation : Quaternion K)
    (translation : Vector3 K) : Matrix K :=
  let xx := rotation.X * rotation.X
  let yy := rotation.Y * rotation.Y
  let zz := rotation.Z * rotation.Z
  let xy := rotation.X * rotation.Y
  let zw := rotation.Z * rotation.W
  let zx := rotation.Z * rotation.X
  let yw := rotation.Y * rotation.W
  let yz := rotation.Y * rotation.Z
  let xw := rotation.X * rotation.W
  let m11 := 1 - 2 * (yy + zz)
  let m12 := 2 * (xy + zw)
  let m13 := 2 * (zx - yw)
  let m21 := 2 * (xy - zw)
  let m22 := 1 - 2 * (zz + xx)
  let m23 := 2 * (yz + xw)
  let m31 := 2 * (zx + yw)
  let m32 := 2 * (yz - xw)
  let m33 := 1 - 2 * (yy + xx)
  { M11 := m11 * scaling.X, M12 := m12 * scaling.X, M13 := m13 * scaling.X, M14 := 0,
    M21 := m21 * scaling.Y, M22 := m22 * scaling.Y, M23 := m23 * scaling.Y, M24 := 0,
    M31 := m31 * scaling.Z, M32 := m32 * scaling.Z, M33 := m33 * scaling.Z, M34 := 0,
    M41 := translation.X, M42 := translation.Y, M43 := translation.Z, M44 := 1 }

/-- `Matrix::CreateFromAxisAngle(const Vector3&, float)`, the value-returning
overload (Matrix.cpp lines 650-687). -/
def CreateFromAxisAngle (cos sin : K → K) (axis : Vector3 K) (angle : K) : Matrix K :=
  let x := axis.X
  let y := axis.Y
  let z := axis.Z
  let single := sin angle
  let single1 := cos angle
  let single2 := x * x
  let single3 := y * y
  let single4 := z * z
  let single5 := x * y
  let single6 := x * z
  let single7 := y * z
  { M11 := single2 + single1 * (1 - single2),
    M12 := single5 - single1 * single5 + single * z,
    M13 := single6 - single1 * single6 - single * y,
    M14 := 0,
    M21 := single5 - single1 * single5 - single * z,
    M22 := single3 + single1 * (1 - single3),
    M23 := single7 - single1 * single7 + single * x,
    M24 := 0,
    M31 := single6 - single1 * single6 + single * y,
    M32 := single7 - single1 * single7 - single * x,
    M33 := single4 + single1 * (1 - single4),
    M34 := 0,
    M41 := 0, M42 := 0, M43 := 0, M44 := 1 }

/-- `Matrix::CreateFromAxisAngle(const Vector3&, float, Matrix&)`, the
output-parameter overload (Matrix.cpp lines 689-722); the last argument is the
previous content of `result`, every entry of which is overwritten. -/
def CreateFromAxisAngleOut (cos sin : K → K) (axis : Vector3 K) (angle : K)
    (_result : Matrix K) : Matrix K :=
  let x := axis.X
  let y := axis.Y
  let z := axis.Z
  let single := sin angle
  let single1 := cos angle
  let single2 := x * x
  let single3 := y * y
  let single4 := z * z
  let single5 := x * y
  let single6 := x * z
  let single7 := y * z
  { M11 := single2 + single1 * (1 - single2),
    M12 := single5 - single1 * single5 + single * z,
    M13 := single6 - single1 * single6 - single * y,
    M14 := 0,
    M21 := single5 - single1 * single5 - single * z,
    M22 := single3 + single1 * (1 - single3),
    M23 := single7 - single1 * single7 + single * x,
    M24 := 0,
    M31 := single6 - single1 * single6 + single * y,
    M32 := single7 - single1 * single7 - single * x,
    M33 := single4 + single1 * (1 - single4),
    M34 := 0,
    M41 := 0, M42 := 0, M43 := 0, M44 := 1 }

/-- `Matrix::TransformPosition(const Matrix&, const Vector3&)` (Matrix.cpp lines
724-732); `v.Raw[0..2]` are `v.X`, `v.Y`, `v.Z`. -/
def TransformPosition (m : Matrix K) (v : Vector3 K) : Vector4 K :=
  { X := m.Values 0 0 * v.X + m.Values 1 0 * v.Y + m.Values 2 0 * v.Z + m.Values 3 0,
    Y := m.Values 0 1 * v.X + m.Values 1 1 * v.Y + m.Values 2 1 * v.Z + m.Values 3 1,
    Z := m.Values 0 2 * v.X + m.Values 1 2 * v.Y + m.Values 2 2 * v.Z + m.Values 3 2,
    W := m.Values 0 3 * v.X + m.Values 1 3 * v.Y + m.Values 2 3 * v.Z + m.Values 3 3 }

/-- `Matrix::TransformPosition(const Matrix&, const Vector4&)` (Matrix.cpp lines
734-742). -/
def TransformPosition4 (m : Matrix K) (v : Vector4 K) : Vector4 K :=
  { X := m.Values 0 0 * v.X + m.Values 1 0 * v.Y + m.Values 2 0 * v.Z + m.Values 3 0 * v.W,
    Y := m.Values 0 1 * v.X + m.Values 1 1 * v.Y + m.Values 2 1 * v.Z + m.Values 3 1 * v.W,
    Z := m.Values 0 2 * v.X + m.Values 1 2 * v.Y + m.Values 2 2 * v.Z + m.Values 3 2 * v.W,
    W := m.Values 0 3 * v.X + m.Values 1 3 * v.Y + m.Values 2 3 * v.Z + m.Values 3 3 * v.W }

/-- Modelled from the spec: `Matrix::GetRight`, declared in `Matrix.h` (not
among the sources): the X/right axis is row 1 (first three columns). -/
def GetRight (m : Matrix K) : Vector3 K := ⟨m.M11, m.M12, m.M13⟩

/-- Modelled from the spec: `Matrix::GetUp`, declared in `Matrix.h` (not among
the sources): the Y/up axis is row 2 (first three columns). -/
def GetUp (m : Matrix K) : Vector3 K := ⟨m.M21, m.M22, m.M23⟩

/-- Modelled from the spec: `Matrix::GetBackward`, declared in `Matrix.h` (not
among the sources): the Z/backward axis is row 3 (first three columns). -/
def GetBackward (m : Matrix K) : Vector3 K := ⟨m.M31, m.M32, m.M33⟩

/-- Modelled from the spec: `Matrix::SetRight`, declared in `Matrix.h` (not
among the sources): overwrites row 1 (first three columns). -/
def SetRight (m : Matrix K) (value : Vector3 K) : Matrix K :=
  { m with M11 := value.X, M12 := value.Y, M13 := value.Z }

/-- Modelled from the spec: `Matrix::SetUp`, declared in `Matrix.h` (not among
the sources): overwrites row 2 (first three columns). -/
def SetUp (m : Matrix K) (value : Vector3 K) : Matrix K :=
  { m with M21 := value.X, M22 := value.Y, M23 := value.Z }

/-- Modelled from the spec: `Matrix::SetBackward`, declared in `Matrix.h` (not
among the sources): overwrites row 3 (first three columns). -/
def SetBackward (m : Matrix K) (value : Vector3 K) : Matrix K :=
  { m with M31 := value.X, M32 := value.Y, M33 := value.Z }

end Matrix

/-- The three outputs of `Matrix::Decompose(Vector3& scale, Matrix& rotation,
Vector3& translation)`. -/
structure Decomposed (K : Type) where
  scale : Vector3 K
  rotation : Matrix K
  translation : Vector3 K

namespace Matrix

/-- `Matrix::Decompose(Vector3&, Matrix&, Vector3&)` (Matrix.cpp lines 104-132);
`sqrt` stands for `Math::Sqrt`.  The result holds the three output parameters
after the call. -/
def Decompose (sqrt : K → K) (m : Matrix K) : Decomposed K :=
  let translation : Vector3 K := ⟨m.M41, m.M42, m.M43⟩
  let scale : Vector3 K :=
    ⟨sqrt (m.M11 * m.M11 + m.M12 * m.M12 + m.M13 * m.M13),
     sqrt (m.M21 * m.M21 + m.M22 * m.M22 + m.M23 * m.M23),
     sqrt (m.M31 * m.M31 + m.M32 * m.M32 + m.M33 * m.M33)⟩
  let rotation : Matrix K := Identity
  if scale.IsAnyZero then
    ⟨scale, rotation, translation⟩
  else
    let atv : Vector3 K := ⟨m.M31 / scale.Z, m.M32 / scale.Z, m.M33 / scale.Z⟩
    let up := Vector3.Cross atv ⟨m.M11 / scale.X, m.M12 / scale.X, m.M13 / scale.X⟩
    let right := Vector3.Cross up atv
    let rotation := rotation.SetRight right
    let rotation := rotation.SetUp up
    let rotation := rotation.SetBackward atv
    let scaleX := if Vector3.Dot right m.GetRight > 0 then scale.X else -scale.X
    let scaleY := if Vector3.Dot up m.GetUp > 0 then scale.Y else -scale.Y
    let scaleZ := if Vector3.Dot atv m.GetBackward > 0 then scale.Z else -scale.Z
    ⟨⟨scaleX, scaleY, scaleZ⟩, rotation, translation⟩

end Matrix

namespace Vector3

/-- Modelled from the spec: `Vector3::Subtract` / `operator-`, declared in
`Vector3.h` (not among the sources): the component-wise difference. -/
def Subtract (a b : Vector3 K) : Vector3 K :=
  ⟨a.X - b.X, a.Y - b.Y, a.Z - b.Z⟩

/-- Modelled from the spec: unary `operator-` of `Vector3`, declared in
`Vector3.h` (not among the sources): the component-wise negation. -/
def Negate (a : Vector3 K) : Vector3 K :=
  ⟨-a.X, -a.Y, -a.Z⟩

/-- Modelled from the spec: the product of a scalar and a `Vector3`
(`operator*`, `operator*=`), declared in `Vector3.h` (not among the sources). -/
def Scale (a : Vector3 K) (k : K) : Vector3 K :=
  ⟨a.X * k, a.Y * k, a.Z * k⟩

/-- Modelled from the spec: `operator+=` of `Vector3`, declared in `Vector3.h`
(not among the sources): the component-wise sum. -/
def Add (a b : Vector3 K) : Vector3 K :=
  ⟨a.X + b.X, a.Y + b.Y, a.Z + b.Z⟩

/-- Modelled from the spec: `Vector3::LengthSquared`, declared in `Vector3.h`
(not among the sources): the sum of the squared components. -/
def LengthSquared (a : Vector3 K) : K :=
  a.X * a.X + a.Y * a.Y + a.Z * a.Z

end Vector3

/-- The three outputs of `Matrix::Decompose(float& yaw, float& pitch, float& roll)`. -/
structure YawPitchRoll (K : Type) where
  yaw : K
  pitch : K
  roll : K

/-- The two outputs of `Matrix::Decompose(Vector3& scale, Vector3& translation)`. -/
structure ScaleTranslation (K : Type) where
  scale : Vector3 K
  translation : Vector3 K

namespace Matrix

/-- `Matrix::Decompose(float& yaw, float& pitch, float& roll)` (Matrix.cpp lines
63-76); `asin`, `cos`, `atan2` stand for `Math::Asin`, `Math::Cos`,
`Math::Atan2`.  The threshold is the literal `1e-12f`. -/
def DecomposeYawPitchRoll (asin cos : K → K) (atan2 : K → K → K) (m : Matrix K) :
    YawPitchRoll K :=
  let pitch := asin (-m.M32)
  if cos pitch > 1 / 10 ^ 12 then
    let roll := atan2 m.M12 m.M22
    let yaw := atan2 m.M31 m.M33
    ⟨yaw, pitch, roll⟩
  else
    let roll := atan2 (-m.M21) m.M11
    let yaw := 0
    ⟨yaw, pitch, roll⟩

/-- `Matrix::Decompose(Vector3& scale, Vector3& translation)` (Matrix.cpp lines
78-88); `sqrt` stands for `Math::Sqrt`. -/
def DecomposeScaleTranslation (sqrt : K → K) (m : Matrix K) : ScaleTranslation K :=
  let translation : Vector3 K := ⟨m.M41, m.M42, m.M43⟩
  let scale : Vector3 K :=
    ⟨sqrt (m.M11 * m.M11 + m.M12 * m.M12 + m.M13 * m.M13),
     sqrt (m.M21 * m.M21 + m.M22 * m.M22 + m.M23 * m.M23),
     sqrt (m.M31 * m.M31 + m.M32 * m.M32 + m.M33 * m.M33)⟩
  ⟨scale, translation⟩

/-- `Matrix::Billboard` (Matrix.cpp lines 241-276).  `sqrt` stands for
`Math::Sqrt`, `isZero` for `Math::IsZero` and `normalize` for the in-place
`Vector3::Normalize`, all declared outside `Matrix.cpp`.  Every entry of
`result` is written. -/
def Billboard (sqrt : K → K) (isZero : K → Bool) (normalize : Vector3 K → Vector3 K)
    (objectPosition cameraPosition cameraUpVector cameraForwardVector : Vector3 K) :
    Matrix K :=
  let difference := Vector3.Subtract cameraPosition objectPosition
  let lengthSq := difference.LengthSquared
  let difference :=
    if isZero lengthSq then
      Vector3.Negate cameraForwardVector
    else
      difference.Scale (1 / sqrt lengthSq)
  let crossed := Vector3.Cross cameraUpVector difference
  let crossed := normalize crossed
  let final := Vector3.Cross difference crossed
  { M11 := crossed.X, M12 := crossed.Y, M13 := crossed.Z, M14 := 0,
    M21 := final.X, M22 := final.Y, M23 := final.Z, M24 := 0,
    M31 := difference.X, M32 := difference.Y, M33 := difference.Z, M34 := 0,
    M41 := objectPosition.X, M42 := objectPosition.Y, M43 := objectPosition.Z, M44 := 1 }

/-- `Matrix::LookAt` (Matrix.cpp lines 278-304); `normalize` stands for the
in-place `Vector3::Normalize`. -/
def LookAt (normalize : Vector3 K → Vector3 K) (eye target up : Vector3 K) : Matrix K :=
  let zaxis := Vector3.Subtract target eye
  let zaxis := normalize zaxis
  let xaxis := Vector3.Cross up zaxis
  let xaxis := normalize xaxis
  let yaxis := Vector3.Cross zaxis xaxis
  { (Identity : Matrix K) with
    M11 := xaxis.X, M21 := xaxis.Y, M31 := xaxis.Z,
    M12 := yaxis.X, M22 := yaxis.Y, M32 := yaxis.Z,
    M13 := zaxis.X, M23 := zaxis.Y, M33 := zaxis.Z,
    M41 := -Vector3.Dot xaxis eye,
    M42 := -Vector3.Dot yaxis eye,
    M43 := -Vector3.Dot zaxis eye }

/-- `Matrix::OrthoOffCenter` (Matrix.cpp lines 306-317). -/
def OrthoOffCenter (left right bottom top zNear zFar : K) : Matrix K :=
  let zRange := 1 / (zFar - zNear)
  { (Identity : Matrix K) with
    M11 := 2 / (right - left),
    M22 := 2 / (top - bottom),
    M33 := zRange,
    M41 := (left + right) / (left - right),
    M42 := (top + bottom) / (bottom - top),
    M43 := -zNear * zRange }

/-- `Matrix::PerspectiveOffCenter` (Matrix.cpp lines 330-342). -/
def PerspectiveOffCenter (left right bottom top zNear zFar : K) : Matrix K :=
  let zRange := zFar / (zFar - zNear)
  { (Zero : Matrix K) with
    M11 := 2 * zNear / (right - left),
    M22 := 2 * zNear / (top - bottom),
    M31 := (left + right) / (left - right),
    M32 := (top + bottom) / (bottom - top),
    M33 := zRange,
    M34 := 1,
    M43 := -zNear * zRange }

/-- The denominator `rr0` that `Matrix::Skew` computes before its assertion
(Matrix.cpp lines 473-482); `normalize` stands for `Vector3::Normalize`. -/
def SkewRr0 (cos sin : K → K) (normalize : Vector3 K → Vector3 K) (angle : K)
    (rotationVec transVec : Vector3 K) : K :=
  let e0 := rotationVec
  let e1 := normalize transVec
  let rv1 := Vector3.Dot rotationVec e1
  let e0 := e0.Add (e1.Scale rv1)
  let rv0 := Vector3.Dot rotationVec e0
  let cosa := cos angle
  let sina := sin angle
  rv0 * cosa - rv1 * sina

/-- The value `rv1` that `Matrix::Skew` computes (Matrix.cpp lines 473-477), the
dot product of `rotationVec` with the normalised `transVec`. -/
def SkewRv1 (normalize : Vector3 K → Vector3 K) (rotationVec transVec : Vector3 K) : K :=
  let e1 := normalize transVec
  Vector3.Dot rotationVec e1

/-- The denominator `rv0` that `Matrix::Skew` computes (Matrix.cpp lines
473-479), the dot product of `rotationVec` with `e0`. -/
def SkewRv0 (normalize : Vector3 K → Vector3 K) (rotationVec transVec : Vector3 K) : K :=
  let e0 := rotationVec
  let e1 := normalize transVec
  let rv1 := Vector3.Dot rotationVec e1
  let e0 := e0.Add (e1.Scale rv1)
  Vector3.Dot rotationVec e0

/-- `Matrix::Skew` (Matrix.cpp lines 468-499).  A failed `ASSERT` is fatal: the
result is `none`.  Otherwise the result is the matrix written to `matrix`.
`MINIMAL_SKEW_ANGLE` is the literal `0.000001f`. -/
def Skew (cos sin : K → K) (normalize : Vector3 K → Vector3 K) (angle : K)
    (rotationVec transVec : Vector3 K) : Option (Matrix K) :=
  let MINIMAL_SKEW_ANGLE : K := 1 / 1000000
  let e0 := rotationVec
  let e1 := normalize transVec
  let rv1 := Vector3.Dot rotationVec e1
  let e0 := e0.Add (e1.Scale rv1)
  let rv0 := Vector3.Dot rotationVec e0
  let cosa := cos angle
  let sina := sin angle
  let rr0 := rv0 * cosa - rv1 * sina
  let rr1 := rv0 * sina + rv1 * cosa
  if rr0 ≥ MINIMAL_SKEW_ANGLE then
    let d := rr1 / rr0 - rv1 / rv0
    some
      { (Identity : Matrix K) with
        M11 := d * e1.X * e0.X + 1,
        M12 := d * e1.X * e0.Y,
        M13 := d * e1.X * e0.Z,
        M21 := d * e1.Y * e0.X,
        M22 := d * e1.Y * e0.Y + 1,
        M23 := d * e1.Y * e0.Z,
        M31 := d * e1.Z * e0.X,
        M32 := d * e1.Z * e0.Y,
        M33 := d * e1.Z * e0.Z + 1 }
  else
    none

end Matrix

/-! ## Sample inputs -/

/-- A rational parametrisation of the unit circle, used as a cosine on `ℚ`. -/
def ratCos (a : ℚ) : ℚ := (1 - a * a) / (1 + a * a)

/-- The sine matching `ratCos`: `ratCos a ^ 2 + ratSin a ^ 2 = 1` for every `a`. -/
def ratSin (a : ℚ) : ℚ := 2 * a / (1 + a * a)

/-- An invertible, non-symmetric sample matrix (determinant 2). -/
def sampleMatrix : Matrix ℚ :=
  ⟨1, 2, 0, 0,
   0, 1, 0, 0,
   0, 0, 2, 0,
   3, 0, 1, 1⟩

/-- A sample matrix whose second row is all zero. -/
def zeroRowMatrix : Matrix ℚ :=
  ⟨1, 2, 3, 4,
   0, 0, 0, 0,
   5, 6, 7, 8,
   9, 1, 2, 3⟩

/-- The uniform scaling by `100000`, `diag(100000, 100000, 100000, 1)`. -/
def largeScaleMatrix : Matrix ℚ :=
  ⟨100000, 0, 0, 0,
   0, 100000, 0, 0,
   0, 0, 100000, 0,
   0, 0, 0, 1⟩

/-- A unit quaternion with rational components. -/
def sampleQuaternion : Quaternion ℚ := ⟨1 / 2, 1 / 2, 1 / 2, 1 / 2⟩

/-- A unit axis with rational components. -/
def sampleAxis : Vector3 ℚ := ⟨3 / 5, 0, 4 / 5⟩

/-- A rational stand-in for `Vector3::Normalize`: divides by the rational square
root of the squared length, and leaves a vector of zero length unchanged. -/
def ratNormalize (v : Vector3 ℚ) : Vector3 ℚ :=
  let length := Rat.sqrt (v.X * v.X + v.Y * v.Y + v.Z * v.Z)
  if length = 0 then v else ⟨v.X / length, v.Y / length, v.Z / length⟩

/-- A rational stand-in for `Math::IsZero`: the absolute value is below `1e-6`. -/
def ratIsZero (a : ℚ) : Bool := decide (|a| < 1 / 1000000)

/-- A rational stand-in for `Math::Asin`, in the half-angle parametrisation of
`ratCos` and `ratSin` (an angle is represented by the tangent of its half). -/
def ratAsin (x : ℚ) : ℚ := x / (1 + Rat.sqrt (1 - x * x))

/-- A rational stand-in for `Math::Atan2`, in the same parametrisation. -/
def ratAtan2 (y x : ℚ) : ℚ := y / (Rat.sqrt (x * x + y * y) + x)

/-- A singular sample matrix: rows 1 and 2 coincide, all three rows have length 1. -/
def repeatedRowMatrix : Matrix ℚ :=
  ⟨1, 0, 0, 0,
   1, 0, 0, 0,
   0, 0, 1, 0,
   0, 0, 0, 1⟩

/-- A sheared sample matrix: rows of length 1, rows 1 and 3 not orthogonal. -/
def shearedMatrix : Matrix ℚ :=
  ⟨3 / 5, 0, 4 / 5, 0,
   0, 1, 0, 0,
   0, 0, 1, 0,
   0, 0, 0, 1⟩

/-- A sample matrix whose third row has length zero. -/
def zeroScaleMatrix : Matrix ℚ :=
  ⟨3, 4, 0, 0,
   0, 2, 0, 0,
   0, 0, 0, 0,
   7, 8, 9, 1⟩

/-- A gimbal-locked sample matrix (`M32 = -1`), with a translation row. -/
def gimbalMatrix : Matrix ℚ :=
  ⟨0, 1, 0, 0,
   0, 0, 0, 0,
   1, -1, 0, 0,
   5, 6, 7, 1⟩

/-- A mirror across the XZ plane: `diag(1, -1, 1, 1)`, with a translation row. -/
def mirrorMatrix : Matrix ℚ :=
  ⟨1, 0, 0, 0,
   0, -1, 0, 0,
   0, 0, 1, 0,
   4, 5, 6, 1⟩

/-! ## Reference-model lemmas -/

namespace Matrix

@[simp] theorem Values_00 (m : Matrix K) : m.Values 0 0 = m.M11 := rfl
@[simp] theorem Values_01 (m : Matrix K) : m.Values 0 1 = m.M12 := rfl
@[simp] theorem Values_02 (m : Matrix K) : m.Values 0 2 = m.M13 := rfl
@[simp] theorem Values_03 (m : Matrix K) : m.Values 0 3 = m.M14 := rfl
@[simp] theorem Values_10 (m : Matrix K) : m.Values 1 0 = m.M21 := rfl
@[simp] theorem Values_11 (m : Matrix K) : m.Values 1 1 = m.M22 := rfl
@[simp] theorem Values_12 (m : Matrix K) : m.Values 1 2 = m.M23 := rfl
@[simp] theorem Values_13 (m : Matrix K) : m.Values 1 3 = m.M24 := rfl
@[simp] theorem Values_20 (m : Matrix K) : m.Values 2 0 = m.M31 := rfl
@[simp] theorem Values_21 (m : Matrix K) : m.Values 2 1 = m.M32 := rfl
@[simp] theorem Values_22 (m : Matrix K) : m.Values 2 2 = m.M33 := rfl
@[simp] theorem Values_23 (m : Matrix K) : m.Values 2 3 = m.M34 := rfl
@[simp] theorem Values_30 (m : Matrix K) : m.Values 3 0 = m.M41 := rfl
@[simp] theorem Values_31 (m : Matrix K) : m.Values 3 1 = m.M42 := rfl
@[simp] theorem Values_32 (m : Matrix K) : m.Values 3 2 = m.M43 := rfl
@[simp] theorem Values_33 (m : Matrix K) : m.Values 3 3 = m.M44 := rfl

theorem toMat_injective (a b : Matrix K) (h : toMat a = toMat b) : a = b := by
  have e : ∀ i j, a.Values i j = b.Values i j := fun i j => by
    have := congrFun (congrFun h i) j
    simpa [toMat] using this
  ext
  · simpa [Values] using e 0 0
  · simpa [Values] using e 0 1
  · simpa [Values] using e 0 2
  · simpa [Values] using e 0 3
  · simpa [Values] using e 1 0
  · simpa [Values] using e 1 1
  · simpa [Values] using e 1 2
  · simpa [Values] using e 1 3
  · simpa [Values] using e 2 0
  · simpa [Values] using e 2 1
  · simpa [Values] using e 2 2
  · simpa [Values] using e 2 3
  · simpa [Values] using e 3 0
  · simpa [Values] using e 3 1
  · simpa [Values] using e 3 2
  · simpa [Values] using e 3 3

theorem toMat_Multiply (a b : Matrix K) : toMat (Multiply a b) = toMat a * toMat b := by
  ext i j
  fin_cases i <;> fin_cases j <;>
    simp [toMat, Multiply, Values, Matrix.mul_apply, Fin.sum_univ_four]

theorem toMat_Identity : toMat (Identity : Matrix K) = 1 := by
  ext i j
  fin_cases i <;> fin_cases j <;>
    simp [toMat, Identity, Values, Matrix.vecHead, Matrix.vecTail]

theorem GetDeterminant_eq_det (m : Matrix K) : m.GetDeterminant = (toMat m).det := by
  rw [Matrix.det_succ_row_zero]
  have h3 : (Fin.succ 2 : Fin 4) = 3 := rfl
  have e1 : (Fin.castSucc 2 : Fin 4) = 2 := rfl
  simp [Fin.sum_univ_succ, Matrix.det_fin_three, Fin.succAbove, Matrix.submatrix, h3, e1,
    toMat, Values, GetDeterminant]
  ring

theorem InvertDet_eq_GetDeterminant (m : Matrix K) : m.InvertDet = m.GetDeterminant := by
  simp only [InvertDet, GetDeterminant]
  ring

theorem InvertDet_ne_zero (m : Matrix K) (h : 1 / 10 ^ 12 < |m.InvertDet|) :
    m.InvertDet ≠ 0 := by
  intro h0
  rw [h0, abs_zero] at h
  have : (0 : K) < 1 / 10 ^ 12 := by positivity
  exact lt_asymm h this

set_option maxHeartbeats 4000000 in
theorem Multiply_Invert (m : Matrix K) (h : 1 / 10 ^ 12 < |m.InvertDet|) :
    Multiply m (Invert m) = Identity := by
  have hinv : m.InvertDet * (1 / m.InvertDet) = 1 :=
    mul_one_div_cancel (InvertDet_ne_zero m h)
  have hif : ¬ |m.InvertDet| ≤ 1 / 10 ^ 12 := not_le.mpr h
  simp only [InvertDet] at hinv hif
  simp only [Invert, if_neg hif]
  ext <;> simp only [Multiply, Identity]
  · linear_combination hinv
  · ring1
  · ring1
  · ring1
  · ring1
  · linear_combination hinv
  · ring1
  · ring1
  · ring1
  · ring1
  · linear_combination hinv
  · ring1
  · ring1
  · ring1
  · ring1
  · linear_combination hinv

set_option maxHeartbeats 4000000 in
theorem Invert_Multiply (m : Matrix K) (h : 1 / 10 ^ 12 < |m.InvertDet|) :
    Multiply (Invert m) m = Identity := by
  have hinv : m.InvertDet * (1 / m.InvertDet) = 1 :=
    mul_one_div_cancel (InvertDet_ne_zero m h)
  have hif : ¬ |m.InvertDet| ≤ 1 / 10 ^ 12 := not_le.mpr h
  simp only [InvertDet] at hinv hif
  simp only [Invert, if_neg hif]
  ext <;> simp only [Multiply, Identity]
  · linear_combination hinv
  · ring1
  · ring1
  · ring1
  · ring1
  · linear_combination hinv
  · ring1
  · ring1
  · ring1
  · ring1
  · linear_combination hinv
  · ring1
  · ring1
  · ring1
  · ring1
  · linear_combination hinv

theorem Invert_of_le (m : Matrix K) (h : |m.InvertDet| ≤ 1 / 10 ^ 12) :
    Invert m = Zero := by
  simp only [InvertDet] at h
  simp only [Invert, if_pos h]

theorem InvertDet_eq_det (m : Matrix K) : m.InvertDet = (toMat m).det := by
  rw [InvertDet_eq_GetDeterminant, GetDeterminant_eq_det]

theorem zero_row_det (m : Matrix K) (i : Fin 4) (h : ∀ j, m.Values i j = 0) :
    (toMat m).det = 0 :=
  Matrix.det_eq_zero_of_row_eq_zero i (fun j => by simpa [toMat] using h j)

theorem GetDeterminant_Identity : GetDeterminant (Identity : Matrix K) = 1 := by
  rw [GetDeterminant_eq_det, toMat_Identity, Matrix.det_one]

theorem GetDeterminant_Zero : GetDeterminant (Zero : Matrix K) = 0 := by
  simp only [GetDeterminant, Zero]
  ring

theorem Values_Transpose (m : Matrix K) (i j : Fin 4) :
    (Transpose m).Values i j = m.Values j i := by
  fin_cases i <;> fin_cases j <;> simp [Values, Transpose]

theorem sampleMatrix_det : (toMat sampleMatrix).det = 2 := by
  rw [← GetDeterminant_eq_det]
  norm_num [GetDeterminant, sampleMatrix]

theorem Invert_largeScaleMatrix :
    Invert largeScaleMatrix =
      ⟨1 / 100000, 0, 0, 0, 0, 1 / 100000, 0, 0, 0, 0, 1 / 100000, 0, 0, 0, 0, 1⟩ := by
  norm_num [Invert, largeScaleMatrix, abs_div]

/-- Double inversion returns the argument whenever both inversions stay clear of
the degeneracy threshold, that is when `10⁻¹² < |det m| < 10¹²`. -/
theorem double_Invert_of_bounds (m : Matrix K) (h1 : 1 / 10 ^ 12 < |(toMat m).det|)
    (h2 : |(toMat m).det| < 10 ^ 12) : Invert (Invert m) = m := by
  have hm : 1 / 10 ^ 12 < |m.InvertDet| := by rw [InvertDet_eq_det]; exact h1
  have hR := Multiply_Invert m hm
  have hmat : toMat m * toMat (Invert m) = 1 := by
    rw [← toMat_Multiply, hR, toMat_Identity]
  have hdet : (toMat m).det * (toMat (Invert m)).det = 1 := by
    rw [← Matrix.det_mul, hmat, Matrix.det_one]
  have hpos : 0 < |(toMat m).det| := lt_trans (by positivity) h1
  have habs : |(toMat m).det| * |(toMat (Invert m)).det| = 1 := by
    rw [← abs_mul, hdet, abs_one]
  have hinv : 1 / 10 ^ 12 < |(Invert m).InvertDet| := by
    rw [InvertDet_eq_det]
    have e : |(toMat (Invert m)).det| = 1 / |(toMat m).det| := by
      field_simp
      linarith
    rw [e]
    exact one_div_lt_one_div_of_lt hpos h2
  have hRR := Multiply_Invert (Invert m) hinv
  have hmat2 : toMat (Invert m) * toMat (Invert (Invert m)) = 1 := by
    rw [← toMat_Multiply, hRR, toMat_Identity]
  apply toMat_injective
  calc toMat (Invert (Invert m))
      = (toMat m * toMat (Invert m)) * toMat (Invert (Invert m)) := by rw [hmat, one_mul]
    _ = toMat m * (toMat (Invert m) * toMat (Invert (Invert m))) := by rw [mul_assoc]
    _ = toMat m := by rw [hmat2, mul_one]

theorem ratCos_sq_add_ratSin_sq (a : ℚ) :
    ratCos a * ratCos a + ratSin a * ratSin a = 1 := by
  have h : (1 + a * a) ≠ 0 := ne_of_gt (by nlinarith [mul_self_nonneg a])
  simp only [ratCos, ratSin]
  field_simp
  ring

theorem sampleQuaternion_unit :
    sampleQuaternion.X * sampleQuaternion.X + sampleQuaternion.Y * sampleQuaternion.Y +
      sampleQuaternion.Z * sampleQuaternion.Z + sampleQuaternion.W * sampleQuaternion.W = 1 := by
  norm_num [sampleQuaternion]

theorem sampleAxis_unit :
    sampleAxis.X * sampleAxis.X + sampleAxis.Y * sampleAxis.Y +
      sampleAxis.Z * sampleAxis.Z = 1 := by
  norm_num [sampleAxis]

theorem Rat_sqrt_mul_self (x : ℚ) (hx : 0 ≤ x) : Rat.sqrt (x * x) = x := by
  rw [Rat.sqrt_eq, abs_of_nonneg hx]

theorem RotDeterminant_RotationX (cos sin : K → K) (a : K)
    (h : cos a * cos a + sin a * sin a = 1) : RotDeterminant (RotationX cos sin a) = 1 := by
  simp [RotDeterminant, RotationX, Identity, Values]
  linear_combination h

theorem RotDeterminant_RotationY (cos sin : K → K) (a : K)
    (h : cos a * cos a + sin a * sin a = 1) : RotDeterminant (RotationY cos sin a) = 1 := by
  simp [RotDeterminant, RotationY, Identity, Values]
  linear_combination h

theorem RotDeterminant_RotationZ (cos sin : K → K) (a : K)
    (h : cos a * cos a + sin a * sin a = 1) : RotDeterminant (RotationZ cos sin a) = 1 := by
  simp [RotDeterminant, RotationZ, Identity, Values]
  linear_combination h

theorem RotDeterminant_RotationQuaternion (q : Quaternion K)
    (h : q.X * q.X + q.Y * q.Y + q.Z * q.Z + q.W * q.W = 1) :
    RotDeterminant (RotationQuaternion q) = 1 := by
  simp only [RotDeterminant, RotationQuaternion, Values, Matrix.cons_val_zero,
    Matrix.cons_val_one, Matrix.head_cons, Matrix.cons_val_two, Matrix.tail_cons]
  linear_combination (4 * (q.X * q.X + q.Y * q.Y + q.Z * q.Z)) * h

theorem RotDeterminant_RotationAxis (cos sin : K → K) (axis : Vector3 K) (a : K)
    (h : cos a * cos a + sin a * sin a = 1)
    (haxis : axis.X * axis.X + axis.Y * axis.Y + axis.Z * axis.Z = 1) :
    RotDeterminant (RotationAxis cos sin axis a) = 1 := by
  simp only [RotDeterminant, RotationAxis, Identity, Values, Matrix.cons_val_zero,
    Matrix.cons_val_one, Matrix.head_cons, Matrix.cons_val_two, Matrix.tail_cons]
  linear_combination
    ((cos a * cos a + sin a * sin a) * (1 - cos a) + sin a * sin a *
      (1 + (1 - cos a) * (axis.X * axis.X + axis.Y * axis.Y + axis.Z * axis.Z - 1))) * haxis + h


theorem TransformPosition_RotationQuaternion_sq (q : Quaternion K)
    (h : q.X * q.X + q.Y * q.Y + q.Z * q.Z + q.W * q.W = 1) (v : Vector3 K) :
    (TransformPosition (RotationQuaternion q) v).X * (TransformPosition (RotationQuaternion q) v).X +
      (TransformPosition (RotationQuaternion q) v).Y * (TransformPosition (RotationQuaternion q) v).Y +
      (TransformPosition (RotationQuaternion q) v).Z * (TransformPosition (RotationQuaternion q) v).Z =
    v.X * v.X + v.Y * v.Y + v.Z * v.Z := by
  simp only [TransformPosition, Values_00, Values_01, Values_02, Values_10, Values_11,
    Values_12, Values_20, Values_21, Values_22, Values_30, Values_31, Values_32,
    RotationQuaternion]
  linear_combination
    (4 * (q.Y * q.Y + q.Z * q.Z) * (v.X * v.X) + 4 * (q.X * q.X + q.Z * q.Z) * (v.Y * v.Y) +
      4 * (q.X * q.X + q.Y * q.Y) * (v.Z * v.Z) - 8 * (q.X * q.Y) * (v.X * v.Y) -
      8 * (q.X * q.Z) * (v.X * v.Z) - 8 * (q.Y * q.Z) * (v.Y * v.Z)) * h

theorem TransformPosition_RotationQuaternion_W (q : Quaternion K) (v : Vector3 K) :
    (TransformPosition (RotationQuaternion q) v).W = 1 := by
  simp [TransformPosition, RotationQuaternion]

theorem RotationQuaternion_mul_Transpose (q : Quaternion K)
    (h : q.X * q.X + q.Y * q.Y + q.Z * q.Z + q.W * q.W = 1) :
    Multiply (RotationQuaternion q) (Transpose (RotationQuaternion q)) = Identity := by
  ext <;> simp only [Multiply, Transpose, RotationQuaternion, Identity]
  · linear_combination (4 * (q.Y * q.Y + q.Z * q.Z)) * h
  · linear_combination (-4 * (q.X * q.Y)) * h
  · linear_combination (-4 * (q.X * q.Z)) * h
  · ring
  · linear_combination (-4 * (q.X * q.Y)) * h
  · linear_combination (4 * (q.X * q.X + q.Z * q.Z)) * h
  · linear_combination (-4 * (q.Y * q.Z)) * h
  · ring
  · linear_combination (-4 * (q.X * q.Z)) * h
  · linear_combination (-4 * (q.Y * q.Z)) * h
  · linear_combination (4 * (q.X * q.X + q.Y * q.Y)) * h
  · ring
  · ring
  · ring
  · ring
  · ring

theorem Cross_Backward_Right (q : Quaternion K)
    (h : q.X * q.X + q.Y * q.Y + q.Z * q.Z + q.W * q.W = 1) :
    Vector3.Cross (RotationQuaternion q).GetBackward (RotationQuaternion q).GetRight =
      (RotationQuaternion q).GetUp := by
  ext <;> simp only [Vector3.Cross, GetBackward, GetRight, GetUp, RotationQuaternion]
  · linear_combination (4 * q.X * q.Y) * h
  · linear_combination (4 * q.Y * q.Y) * h
  · linear_combination (4 * q.Y * q.Z) * h

theorem Cross_Up_Backward (q : Quaternion K)
    (h : q.X * q.X + q.Y * q.Y + q.Z * q.Z + q.W * q.W = 1) :
    Vector3.Cross (RotationQuaternion q).GetUp (RotationQuaternion q).GetBackward =
      (RotationQuaternion q).GetRight := by
  ext <;> simp only [Vector3.Cross, GetBackward, GetRight, GetUp, RotationQuaternion]
  · linear_combination (4 * q.X * q.X) * h
  · linear_combination (4 * q.X * q.Y) * h
  · linear_combination (4 * q.X * q.Z) * h

theorem Dot_Right (s : Vector3 K) (q : Quaternion K) (t : Vector3 K)
    (h : q.X * q.X + q.Y * q.Y + q.Z * q.Z + q.W * q.W = 1) :
    Vector3.Dot (RotationQuaternion q).GetRight (Transformation s q t).GetRight = s.X := by
  simp only [Vector3.Dot, GetRight, RotationQuaternion, Transformation]
  linear_combination (s.X * (4 * q.Z * q.Z + 4 * q.Y * q.Y)) * h

theorem Dot_Up (s : Vector3 K) (q : Quaternion K) (t : Vector3 K)
    (h : q.X * q.X + q.Y * q.Y + q.Z * q.Z + q.W * q.W = 1) :
    Vector3.Dot (RotationQuaternion q).GetUp (Transformation s q t).GetUp = s.Y := by
  simp only [Vector3.Dot, GetUp, RotationQuaternion, Transformation]
  linear_combination (s.Y * (4 * q.Z * q.Z + 4 * q.X * q.X)) * h

theorem Dot_Backward (s : Vector3 K) (q : Quaternion K) (t : Vector3 K)
    (h : q.X * q.X + q.Y * q.Y + q.Z * q.Z + q.W * q.W = 1) :
    Vector3.Dot (RotationQuaternion q).GetBackward (Transformation s q t).GetBackward = s.Z := by
  simp only [Vector3.Dot, GetBackward, RotationQuaternion, Transformation]
  linear_combination (s.Z * (4 * q.Y * q.Y + 4 * q.X * q.X)) * h

theorem Transformation_row1_sq (s : Vector3 K) (q : Quaternion K) (t : Vector3 K)
    (h : q.X * q.X + q.Y * q.Y + q.Z * q.Z + q.W * q.W = 1) :
    (Transformation s q t).M11 * (Transformation s q t).M11 +
      (Transformation s q t).M12 * (Transformation s q t).M12 +
      (Transformation s q t).M13 * (Transformation s q t).M13 = s.X * s.X := by
  simp only [Transformation]
  linear_combination (s.X * s.X * (4 * q.Z * q.Z + 4 * q.Y * q.Y)) * h

theorem Transformation_row2_sq (s : Vector3 K) (q : Quaternion K) (t : Vector3 K)
    (h : q.X * q.X + q.Y * q.Y + q.Z * q.Z + q.W * q.W = 1) :
    (Transformation s q t).M21 * (Transformation s q t).M21 +
      (Transformation s q t).M22 * (Transformation s q t).M22 +
      (Transformation s q t).M23 * (Transformation s q t).M23 = s.Y * s.Y := by
  simp only [Transformation]
  linear_combination (s.Y * s.Y * (4 * q.Z * q.Z + 4 * q.X * q.X)) * h

theorem Transformation_row3_sq (s : Vector3 K) (q : Quaternion K) (t : Vector3 K)
    (h : q.X * q.X + q.Y * q.Y + q.Z * q.Z + q.W * q.W = 1) :
    (Transformation s q t).M31 * (Transformation s q t).M31 +
      (Transformation s q t).M32 * (Transformation s q t).M32 +
      (Transformation s q t).M33 * (Transformation s q t).M33 = s.Z * s.Z := by
  simp only [Transformation]
  linear_combination (s.Z * s.Z * (4 * q.Y * q.Y + 4 * q.X * q.X)) * h

theorem Transformation_row1_div (s : Vector3 K) (q : Quaternion K) (t : Vector3 K)
    (hs : s.X ≠ 0) :
    (⟨(Transformation s q t).M11 / s.X, (Transformation s q t).M12 / s.X,
      (Transformation s q t).M13 / s.X⟩ : Vector3 K) = (RotationQuaternion q).GetRight := by
  ext <;> simp only [Transformation, GetRight, RotationQuaternion] <;> field_simp

theorem Transformation_row3_div (s : Vector3 K) (q : Quaternion K) (t : Vector3 K)
    (hs : s.Z ≠ 0) :
    (⟨(Transformation s q t).M31 / s.Z, (Transformation s q t).M32 / s.Z,
      (Transformation s q t).M33 / s.Z⟩ : Vector3 K) = (RotationQuaternion q).GetBackward := by
  ext <;> simp only [Transformation, GetBackward, RotationQuaternion] <;> field_simp

theorem Set_axes_RotationQuaternion (q : Quaternion K) :
    (((Identity : Matrix K).SetRight (RotationQuaternion q).GetRight).SetUp
      (RotationQuaternion q).GetUp).SetBackward (RotationQuaternion q).GetBackward =
      RotationQuaternion q := by
  ext <;> simp only [SetRight, SetUp, SetBackward, GetRight, GetUp, GetBackward, Identity,
    RotationQuaternion]

/-- `Decompose` applied to `Transformation s q t`, for positive `s` and unit `q`. -/
theorem Decompose_of_Transformation (sqrt : K → K)
    (hsqrt : ∀ x : K, 0 ≤ x → sqrt (x * x) = x)
    (s : Vector3 K) (q : Quaternion K) (t : Vector3 K)
    (hx : 0 < s.X) (hy : 0 < s.Y) (hz : 0 < s.Z)
    (h : q.X * q.X + q.Y * q.Y + q.Z * q.Z + q.W * q.W = 1) :
    Decompose sqrt (Transformation s q t) = ⟨s, RotationQuaternion q, t⟩ := by
  have hnz : Vector3.IsAnyZero (⟨s.X, s.Y, s.Z⟩ : Vector3 K) = false := by
    simp [Vector3.IsAnyZero, hx.ne', hy.ne', hz.ne']
  simp only [Decompose, Transformation_row1_sq s q t h, Transformation_row2_sq s q t h,
    Transformation_row3_sq s q t h, hsqrt _ hx.le, hsqrt _ hy.le, hsqrt _ hz.le, hnz,
    Transformation_row1_div s q t hx.ne', Transformation_row3_div s q t hz.ne',
    Cross_Backward_Right q h, Cross_Up_Backward q h, Dot_Right s q t h, Dot_Up s q t h,
    Dot_Backward s q t h, Set_axes_RotationQuaternion]
  rw [if_neg (by simp), if_pos hx, if_pos hy, if_pos hz]
  simp only [Transformation]

theorem Rat_sqrt_one : Rat.sqrt 1 = 1 := by
  rw [show (1 : ℚ) = 1 * 1 by norm_num, Rat.sqrt_eq]
  norm_num

theorem Rat_sqrt_zero : Rat.sqrt 0 = 0 := by
  rw [show (0 : ℚ) = 0 * 0 by norm_num, Rat.sqrt_eq]
  norm_num

theorem ratNormalize_unitX : ratNormalize ⟨1, 0, 0⟩ = ⟨1, 0, 0⟩ := by
  simp [ratNormalize, Rat_sqrt_one]

theorem IsAnyZero_eq_true (v : Vector3 K) :
    v.IsAnyZero = true ↔ v.X = 0 ∨ v.Y = 0 ∨ v.Z = 0 := by
  simp [Vector3.IsAnyZero, or_assoc]

theorem IsAnyZero_eq_false (v : Vector3 K) (hx : v.X ≠ 0) (hy : v.Y ≠ 0) (hz : v.Z ≠ 0) :
    v.IsAnyZero = false := by
  simp [Vector3.IsAnyZero, hx, hy, hz]

/-- The early-return branch of `Decompose`. -/
theorem Decompose_of_zero (sqrt : K → K) (m : Matrix K)
    (h : sqrt (m.M11 * m.M11 + m.M12 * m.M12 + m.M13 * m.M13) = 0 ∨
      sqrt (m.M21 * m.M21 + m.M22 * m.M22 + m.M23 * m.M23) = 0 ∨
      sqrt (m.M31 * m.M31 + m.M32 * m.M32 + m.M33 * m.M33) = 0) :
    Decompose sqrt m =
      ⟨⟨sqrt (m.M11 * m.M11 + m.M12 * m.M12 + m.M13 * m.M13),
        sqrt (m.M21 * m.M21 + m.M22 * m.M22 + m.M23 * m.M23),
        sqrt (m.M31 * m.M31 + m.M32 * m.M32 + m.M33 * m.M33)⟩,
       Identity, ⟨m.M41, m.M42, m.M43⟩⟩ := by
  have hz := (IsAnyZero_eq_true (⟨sqrt (m.M11 * m.M11 + m.M12 * m.M12 + m.M13 * m.M13),
        sqrt (m.M21 * m.M21 + m.M22 * m.M22 + m.M23 * m.M23),
        sqrt (m.M31 * m.M31 + m.M32 * m.M32 + m.M33 * m.M33)⟩ : Vector3 K)).mpr h
  simp only [Decompose, hz, if_true]

/-- The main branch of `Decompose`, with the three row lengths named. -/
theorem Decompose_of_nonzero (sqrt : K → K) (m : Matrix K)
    (h1 : sqrt (m.M11 * m.M11 + m.M12 * m.M12 + m.M13 * m.M13) ≠ 0)
    (h2 : sqrt (m.M21 * m.M21 + m.M22 * m.M22 + m.M23 * m.M23) ≠ 0)
    (h3 : sqrt (m.M31 * m.M31 + m.M32 * m.M32 + m.M33 * m.M33) ≠ 0) :
    Decompose sqrt m =
      ⟨⟨if Vector3.Dot (Decompose sqrt m).rotation.GetRight m.GetRight > 0
          then sqrt (m.M11 * m.M11 + m.M12 * m.M12 + m.M13 * m.M13)
          else -sqrt (m.M11 * m.M11 + m.M12 * m.M12 + m.M13 * m.M13),
        if Vector3.Dot (Decompose sqrt m).rotation.GetUp m.GetUp > 0
          then sqrt (m.M21 * m.M21 + m.M22 * m.M22 + m.M23 * m.M23)
          else -sqrt (m.M21 * m.M21 + m.M22 * m.M22 + m.M23 * m.M23),
        if Vector3.Dot (Decompose sqrt m).rotation.GetBackward m.GetBackward > 0
          then sqrt (m.M31 * m.M31 + m.M32 * m.M32 + m.M33 * m.M33)
          else -sqrt (m.M31 * m.M31 + m.M32 * m.M32 + m.M33 * m.M33)⟩,
       (Decompose sqrt m).rotation, ⟨m.M41, m.M42, m.M43⟩⟩ := by
  have hz := IsAnyZero_eq_false (⟨sqrt (m.M11 * m.M11 + m.M12 * m.M12 + m.M13 * m.M13),
        sqrt (m.M21 * m.M21 + m.M22 * m.M22 + m.M23 * m.M23),
        sqrt (m.M31 * m.M31 + m.M32 * m.M32 + m.M33 * m.M33)⟩ : Vector3 K) h1 h2 h3
  simp only [Decompose, hz, Bool.false_eq_true, if_false, SetRight, SetUp, SetBackward, GetRight,
    GetUp, GetBackward]

theorem Decompose_repeatedRowMatrix :
    Decompose Rat.sqrt repeatedRowMatrix = ⟨⟨1, -1, 1⟩, Identity, ⟨0, 0, 0⟩⟩ := by
  simp [Decompose, repeatedRowMatrix, Rat_sqrt_one, Vector3.IsAnyZero, Vector3.Cross,
    Vector3.Dot, SetRight, SetUp, SetBackward, GetRight, GetUp, GetBackward, Identity]

theorem Decompose_shearedMatrix :
    Decompose Rat.sqrt shearedMatrix =
      ⟨⟨1, 1, 1⟩, ⟨3 / 5, 0, 0, 0, 0, 3 / 5, 0, 0, 0, 0, 1, 0, 0, 0, 0, 1⟩, ⟨0, 0, 0⟩⟩ := by
  have h1 : (3 / 5 : ℚ) * (3 / 5) + 0 * 0 + 4 / 5 * (4 / 5) = 1 := by norm_num
  simp only [Decompose, shearedMatrix, h1]
  norm_num [Rat_sqrt_one, Vector3.IsAnyZero, Vector3.Cross, Vector3.Dot,
    SetRight, SetUp, SetBackward, GetRight, GetUp, GetBackward, Identity]

theorem Skew_eq_none_iff (cos sin : K → K) (normalize : Vector3 K → Vector3 K) (angle : K)
    (rotationVec transVec : Vector3 K) :
    Skew cos sin normalize angle rotationVec transVec = none ↔
      SkewRr0 cos sin normalize angle rotationVec transVec < 1 / 1000000 := by
  simp only [Skew, SkewRr0]
  split_ifs with h
  · simp only [reduceCtorEq, false_iff, not_lt]
    exact h
  · simp only [true_iff]
    exact not_le.mp h

theorem Skew_isSome_iff (cos sin : K → K) (normalize : Vector3 K → Vector3 K) (angle : K)
    (rotationVec transVec : Vector3 K) :
    (Skew cos sin normalize angle rotationVec transVec).isSome = true ↔
      1 / 1000000 ≤ SkewRr0 cos sin normalize angle rotationVec transVec := by
  rw [← not_lt, ← Skew_eq_none_iff, ← Option.not_isSome_iff_eq_none, not_not]

theorem OrthoOffCenter_corners (left right bottom top zNear zFar : K)
    (hz : zNear ≠ zFar) (hlr : left ≠ right) (hbt : bottom ≠ top) :
    TransformPosition4 (OrthoOffCenter left right bottom top zNear zFar)
        ⟨left, bottom, zNear, 1⟩ = ⟨-1, -1, 0, 1⟩ ∧
    TransformPosition4 (OrthoOffCenter left right bottom top zNear zFar)
        ⟨right, top, zFar, 1⟩ = ⟨1, 1, 1, 1⟩ := by
  have h1 : right - left ≠ 0 := sub_ne_zero.mpr (Ne.symm hlr)
  have h2 : left - right ≠ 0 := sub_ne_zero.mpr hlr
  have h3 : top - bottom ≠ 0 := sub_ne_zero.mpr (Ne.symm hbt)
  have h4 : bottom - top ≠ 0 := sub_ne_zero.mpr hbt
  have h5 : zFar - zNear ≠ 0 := sub_ne_zero.mpr (Ne.symm hz)
  constructor <;> ext <;>
    simp only [TransformPosition4, OrthoOffCenter, Identity, Values_00, Values_01,
      Values_02, Values_03, Values_10, Values_11, Values_12, Values_13, Values_20, Values_21,
      Values_22, Values_23, Values_30, Values_31, Values_32, Values_33] <;>
    field_simp <;> ring

theorem PerspectiveOffCenter_depth (left right bottom top zNear zFar : K)
    (hz : zNear ≠ zFar) (_hn : zNear ≠ 0) (hf : zFar ≠ 0) (x y : K) :
    (TransformPosition4 (PerspectiveOffCenter left right bottom top zNear zFar)
        ⟨x, y, zNear, 1⟩).W = zNear ∧
    (TransformPosition4 (PerspectiveOffCenter left right bottom top zNear zFar)
        ⟨x, y, zNear, 1⟩).Z /
      (TransformPosition4 (PerspectiveOffCenter left right bottom top zNear zFar)
        ⟨x, y, zNear, 1⟩).W = 0 ∧
    (TransformPosition4 (PerspectiveOffCenter left right bottom top zNear zFar)
        ⟨x, y, zFar, 1⟩).W = zFar ∧
    (TransformPosition4 (PerspectiveOffCenter left right bottom top zNear zFar)
        ⟨x, y, zFar, 1⟩).Z /
      (TransformPosition4 (PerspectiveOffCenter left right bottom top zNear zFar)
        ⟨x, y, zFar, 1⟩).W = 1 := by
  have h5 : zFar - zNear ≠ 0 := sub_ne_zero.mpr (Ne.symm hz)
  simp only [TransformPosition4, PerspectiveOffCenter, Zero, Values_00, Values_01,
      Values_02, Values_03, Values_10, Values_11, Values_12, Values_13, Values_20, Values_21,
      Values_22, Values_23, Values_30, Values_31, Values_32, Values_33]
  refine ⟨by ring, ?_, by ring, ?_⟩
  · have e : (0 : K) * x + 0 * y + zFar / (zFar - zNear) * zNear +
        -zNear * (zFar / (zFar - zNear)) * 1 = 0 := by ring
    rw [e, zero_div]
  · have e : (0 : K) * x + 0 * y + 1 * zFar + 0 * 1 = zFar := by ring
    rw [e]
    field_simp
    ring

theorem Billboard_of_coincident (sqrt : K → K) (isZero : K → Bool)
    (normalize : Vector3 K → Vector3 K) (h0 : isZero 0 = true)
    (objectPosition cameraUpVector cameraForwardVector : Vector3 K) :
    Billboard sqrt isZero normalize objectPosition objectPosition cameraUpVector
        cameraForwardVector =
      { M11 := (normalize (Vector3.Cross cameraUpVector cameraForwardVector.Negate)).X,
        M12 := (normalize (Vector3.Cross cameraUpVector cameraForwardVector.Negate)).Y,
        M13 := (normalize (Vector3.Cross cameraUpVector cameraForwardVector.Negate)).Z,
        M14 := 0,
        M21 := (Vector3.Cross cameraForwardVector.Negate
          (normalize (Vector3.Cross cameraUpVector cameraForwardVector.Negate))).X,
        M22 := (Vector3.Cross cameraForwardVector.Negate
          (normalize (Vector3.Cross cameraUpVector cameraForwardVector.Negate))).Y,
        M23 := (Vector3.Cross cameraForwardVector.Negate
          (normalize (Vector3.Cross cameraUpVector cameraForwardVector.Negate))).Z,
        M24 := 0,
        M31 := -cameraForwardVector.X, M32 := -cameraForwardVector.Y,
        M33 := -cameraForwardVector.Z, M34 := 0,
        M41 := objectPosition.X, M42 := objectPosition.Y, M43 := objectPosition.Z,
        M44 := 1 } := by
  have hl : (Vector3.Subtract objectPosition objectPosition).LengthSquared = 0 := by
    simp only [Vector3.Subtract, Vector3.LengthSquared]
    ring
  simp only [Billboard, hl, h0, if_true, Vector3.Negate]

theorem Multiply_Zero (m : Matrix K) : Multiply m Zero = Zero := by
  ext <;> simp only [Multiply, Zero] <;> ring

theorem Identity_ne_Zero : (Identity : Matrix K) ≠ Zero := by
  intro h
  have := congrArg Matrix.M11 h
  simp only [Identity, Zero] at this
  exact one_ne_zero this

theorem Invert_eq_Zero_iff (m : Matrix K) :
    Invert m = Zero ↔ |m.GetDeterminant| ≤ 1 / 10 ^ 12 := by
  rw [← InvertDet_eq_GetDeterminant]
  constructor
  · intro h
    by_contra hc
    have hI := Multiply_Invert m (not_le.mp hc)
    rw [h, Multiply_Zero] at hI
    exact Identity_ne_Zero hI.symm
  · exact Invert_of_le m

theorem DecomposeYawPitchRoll_pos (asin cos : K → K) (atan2 : K → K → K) (m : Matrix K)
    (h : cos (asin (-m.M32)) > 1 / 10 ^ 12) :
    DecomposeYawPitchRoll asin cos atan2 m =
      ⟨atan2 m.M31 m.M33, asin (-m.M32), atan2 m.M12 m.M22⟩ := by
  simp only [DecomposeYawPitchRoll, if_pos h]

theorem DecomposeYawPitchRoll_neg (asin cos : K → K) (atan2 : K → K → K) (m : Matrix K)
    (h : ¬ cos (asin (-m.M32)) > 1 / 10 ^ 12) :
    DecomposeYawPitchRoll asin cos atan2 m =
      ⟨0, asin (-m.M32), atan2 (-m.M21) m.M11⟩ := by
  simp only [DecomposeYawPitchRoll, if_neg h]

theorem ratAsin_one : ratAsin 1 = 1 := by
  norm_num [ratAsin, Rat_sqrt_zero]

theorem ratAsin_neg_one : ratAsin (-1) = -1 := by
  norm_num [ratAsin, Rat_sqrt_zero]

/-- The three axes written by the main branch of `Decompose`. -/
theorem Decompose_axes (sqrt : K → K) (m : Matrix K)
    (h1 : sqrt (m.M11 * m.M11 + m.M12 * m.M12 + m.M13 * m.M13) ≠ 0)
    (h2 : sqrt (m.M21 * m.M21 + m.M22 * m.M22 + m.M23 * m.M23) ≠ 0)
    (h3 : sqrt (m.M31 * m.M31 + m.M32 * m.M32 + m.M33 * m.M33) ≠ 0) :
    (Decompose sqrt m).rotation.GetBackward =
      ⟨m.M31 / sqrt (m.M31 * m.M31 + m.M32 * m.M32 + m.M33 * m.M33),
       m.M32 / sqrt (m.M31 * m.M31 + m.M32 * m.M32 + m.M33 * m.M33),
       m.M33 / sqrt (m.M31 * m.M31 + m.M32 * m.M32 + m.M33 * m.M33)⟩ ∧
    (Decompose sqrt m).rotation.GetUp =
      Vector3.Cross (Decompose sqrt m).rotation.GetBackward
        ⟨m.M11 / sqrt (m.M11 * m.M11 + m.M12 * m.M12 + m.M13 * m.M13),
         m.M12 / sqrt (m.M11 * m.M11 + m.M12 * m.M12 + m.M13 * m.M13),
         m.M13 / sqrt (m.M11 * m.M11 + m.M12 * m.M12 + m.M13 * m.M13)⟩ ∧
    (Decompose sqrt m).rotation.GetRight =
      Vector3.Cross (Decompose sqrt m).rotation.GetUp
        (Decompose sqrt m).rotation.GetBackward := by
  have hz := IsAnyZero_eq_false (⟨sqrt (m.M11 * m.M11 + m.M12 * m.M12 + m.M13 * m.M13),
        sqrt (m.M21 * m.M21 + m.M22 * m.M22 + m.M23 * m.M23),
        sqrt (m.M31 * m.M31 + m.M32 * m.M32 + m.M33 * m.M33)⟩ : Vector3 K) h1 h2 h3
  simp only [Decompose, hz, Bool.false_eq_true, if_false, SetRight, SetUp, SetBackward, GetRight,
    GetUp, GetBackward, Vector3.Cross, and_self]

/-- The triple product behind the Y sign test: for non-zero divisors `a`, `c`,
`(row3 / c × row1 / a) · row2 = RotDeterminant / (a * c)`. -/
theorem Dot_Cross_GetUp (m : Matrix K) (a c : K) (ha : a ≠ 0) (hc : c ≠ 0) :
    Vector3.Dot (Vector3.Cross ⟨m.M31 / c, m.M32 / c, m.M33 / c⟩
      ⟨m.M11 / a, m.M12 / a, m.M13 / a⟩) m.GetUp = m.RotDeterminant / (a * c) := by
  simp only [Vector3.Dot, Vector3.Cross, GetUp, RotDeterminant, Values_00, Values_01,
    Values_02, Values_10, Values_11, Values_12, Values_20, Values_21, Values_22]
  field_simp
  ring

/-- The X sign test is `a` times the squared length of the up axis. -/
theorem Dot_Cross_GetRight (m : Matrix K) (a c : K) (ha : a ≠ 0) (hc : c ≠ 0) :
    Vector3.Dot
      (Vector3.Cross
        (Vector3.Cross ⟨m.M31 / c, m.M32 / c, m.M33 / c⟩ ⟨m.M11 / a, m.M12 / a, m.M13 / a⟩)
        ⟨m.M31 / c, m.M32 / c, m.M33 / c⟩) m.GetRight =
      a * Vector3.LengthSquared
        (Vector3.Cross ⟨m.M31 / c, m.M32 / c, m.M33 / c⟩ ⟨m.M11 / a, m.M12 / a, m.M13 / a⟩) := by
  simp only [Vector3.Dot, Vector3.Cross, GetRight, Vector3.LengthSquared]
  field_simp
  ring

/-- The up axis is the cross product of rows 3 and 1 divided by both lengths. -/
theorem Cross_div (m : Matrix K) (a c : K) :
    Vector3.Cross ⟨m.M31 / c, m.M32 / c, m.M33 / c⟩ ⟨m.M11 / a, m.M12 / a, m.M13 / a⟩ =
      (Vector3.Cross m.GetBackward m.GetRight).Scale (1 / (c * a)) := by
  ext <;> simp only [Vector3.Cross, GetBackward, GetRight, Vector3.Scale] <;> ring

theorem LengthSquared_eq_zero (v : Vector3 K) :
    v.LengthSquared = 0 ↔ v = ⟨0, 0, 0⟩ := by
  constructor
  · intro h
    simp only [Vector3.LengthSquared] at h
    have hx : v.X = 0 := by nlinarith [mul_self_nonneg v.X, mul_self_nonneg v.Y, mul_self_nonneg v.Z]
    have hy : v.Y = 0 := by nlinarith [mul_self_nonneg v.X, mul_self_nonneg v.Y, mul_self_nonneg v.Z]
    have hz : v.Z = 0 := by nlinarith [mul_self_nonneg v.X, mul_self_nonneg v.Y, mul_self_nonneg v.Z]
    ext <;> assumption
  · intro h
    rw [h]
    simp [Vector3.LengthSquared]

theorem LengthSquared_nonneg (v : Vector3 K) : 0 ≤ v.LengthSquared := by
  simp only [Vector3.LengthSquared]
  nlinarith [mul_self_nonneg v.X, mul_self_nonneg v.Y, mul_self_nonneg v.Z]

theorem LengthSquared_Scale (v : Vector3 K) (k : K) :
    (v.Scale k).LengthSquared = k * k * v.LengthSquared := by
  simp only [Vector3.Scale, Vector3.LengthSquared]
  ring

/-- Lagrange's identity for rows 3 and 1. -/
theorem LengthSquared_Cross (a b : Vector3 K) :
    (Vector3.Cross a b).LengthSquared =
      a.LengthSquared * b.LengthSquared - Vector3.Dot a b * Vector3.Dot a b := by
  simp only [Vector3.Cross, Vector3.LengthSquared, Vector3.Dot]
  ring

/-- The sign tests of `Decompose` in closed form, for a matrix whose three row
lengths `sqrt (row · row)` are non-zero. -/
theorem Decompose_sign_tests (sqrt : K → K) (m : Matrix K)
    (h1 : sqrt (m.M11 * m.M11 + m.M12 * m.M12 + m.M13 * m.M13) ≠ 0)
    (h2 : sqrt (m.M21 * m.M21 + m.M22 * m.M22 + m.M23 * m.M23) ≠ 0)
    (h3 : sqrt (m.M31 * m.M31 + m.M32 * m.M32 + m.M33 * m.M33) ≠ 0) :
    Vector3.Dot (Decompose sqrt m).rotation.GetUp m.GetUp =
      m.RotDeterminant / (sqrt (m.M11 * m.M11 + m.M12 * m.M12 + m.M13 * m.M13) *
        sqrt (m.M31 * m.M31 + m.M32 * m.M32 + m.M33 * m.M33)) ∧
    Vector3.Dot (Decompose sqrt m).rotation.GetRight m.GetRight =
      sqrt (m.M11 * m.M11 + m.M12 * m.M12 + m.M13 * m.M13) *
        ((1 / (sqrt (m.M31 * m.M31 + m.M32 * m.M32 + m.M33 * m.M33) *
            sqrt (m.M11 * m.M11 + m.M12 * m.M12 + m.M13 * m.M13))) *
          (1 / (sqrt (m.M31 * m.M31 + m.M32 * m.M32 + m.M33 * m.M33) *
            sqrt (m.M11 * m.M11 + m.M12 * m.M12 + m.M13 * m.M13))) *
          (Vector3.Cross m.GetBackward m.GetRight).LengthSquared) ∧
    Vector3.Dot (Decompose sqrt m).rotation.GetBackward m.GetBackward =
      (m.M31 * m.M31 + m.M32 * m.M32 + m.M33 * m.M33) /
        sqrt (m.M31 * m.M31 + m.M32 * m.M32 + m.M33 * m.M33) := by
  obtain ⟨hB, hU, hR⟩ := Decompose_axes sqrt m h1 h2 h3
  refine ⟨?_, ?_, ?_⟩
  · rw [hU, hB]
    exact Dot_Cross_GetUp m _ _ h1 h3
  · rw [hR, hU, hB, Dot_Cross_GetRight m _ _ h1 h3, Cross_div, LengthSquared_Scale]
  · rw [hB]
    simp only [Vector3.Dot, GetBackward]
    ring

theorem SkewRv0_eq (normalize : Vector3 K → Vector3 K) (rotationVec transVec : Vector3 K) :
    SkewRv0 normalize rotationVec transVec =
      rotationVec.LengthSquared +
        SkewRv1 normalize rotationVec transVec * SkewRv1 normalize rotationVec transVec := by
  simp only [SkewRv0, SkewRv1, Vector3.Dot, Vector3.Add, Vector3.Scale, Vector3.LengthSquared]
  ring

theorem GetDeterminant_of_affine (m : Matrix K) (h14 : m.M14 = 0) (h24 : m.M24 = 0)
    (h34 : m.M34 = 0) (h44 : m.M44 = 1) : m.GetDeterminant = m.RotDeterminant := by
  simp only [GetDeterminant, RotDeterminant, Values_00, Values_01, Values_02, Values_10,
    Values_11, Values_12, Values_20, Values_21, Values_22, h14, h24, h34, h44]
  ring

theorem RotDeterminant_eq_det3 (m : Matrix K) :
    m.RotDeterminant =
      Matrix.det !![m.M11, m.M12, m.M13; m.M21, m.M22, m.M23; m.M31, m.M32, m.M33] := by
  rw [Matrix.det_fin_three]
  simp only [RotDeterminant, Values_00, Values_01, Values_02, Values_10, Values_11,
    Values_12, Values_20, Values_21, Values_22, Matrix.of_apply, Matrix.cons_val_zero,
    Matrix.cons_val_one, Matrix.head_cons, Matrix.cons_val_two, Matrix.tail_cons]
  ring

/-! ## Specified properties -/

/-- C1: `Invert` computes the true inverse.  For every matrix `m` whose
determinant satisfies `|det m| > 1e-12`, the matrix written by `Invert`
multiplies with `m` to `Identity` on both sides (row-by-column product). -/
theorem Invert_is_inverse (m : Matrix K) (h : 1 / 10 ^ 12 < |(toMat m).det|) :
    Multiply m (Invert m) = Identity ∧ Multiply (Invert m) m = Identity := by
  rw [← InvertDet_eq_det] at h
  exact ⟨Multiply_Invert m h, Invert_Multiply m h⟩

theorem Invert_is_inverse_witness :
    1 / 10 ^ 12 < |(toMat sampleMatrix).det| ∧
      Multiply sampleMatrix (Invert sampleMatrix) = Identity ∧
      Multiply (Invert sampleMatrix) sampleMatrix = Identity :=
  ⟨by rw [sampleMatrix_det]; norm_num,
   Invert_is_inverse sampleMatrix (by rw [sampleMatrix_det]; norm_num)⟩

/-- C2: the degeneracy policy of `Invert`.  Whenever the determinant it computes
satisfies `|det| ≤ 1e-12` the result is exactly `Zero`; in particular for every
singular matrix, for every matrix with an all-zero row, and for `Zero` itself.
No error is signalled: `Invert` is a total function returning a matrix. -/
theorem Invert_degenerate (K : Type) [LinearOrderedField K] :
    (∀ m : Matrix K, |m.InvertDet| ≤ 1 / 10 ^ 12 → Invert m = Zero) ∧
    (∀ m : Matrix K, (toMat m).det = 0 → Invert m = Zero) ∧
    (∀ (m : Matrix K) (i : Fin 4), (∀ j, m.Values i j = 0) → Invert m = Zero) ∧
    Invert (Zero : Matrix K) = Zero := by
  have hsing : ∀ m : Matrix K, (toMat m).det = 0 → Invert m = Zero := by
    intro m h
    apply Invert_of_le
    rw [InvertDet_eq_det, h, abs_zero]
    positivity
  refine ⟨fun m h => Invert_of_le m h, hsing, ?_, ?_⟩
  · intro m i h
    exact hsing m (zero_row_det m i h)
  · apply hsing
    rw [← GetDeterminant_eq_det, GetDeterminant_Zero]

theorem Invert_degenerate_witness :
    |zeroRowMatrix.InvertDet| ≤ 1 / 10 ^ 12 ∧ Invert zeroRowMatrix = Zero :=
  ⟨by norm_num [InvertDet, zeroRowMatrix],
   (Invert_degenerate ℚ).1 zeroRowMatrix (by norm_num [InvertDet, zeroRowMatrix])⟩

/-- C3, as stated, fails: the uniform scaling by `100000` has determinant
`10¹⁵ > 1e-6`, its inverse has determinant `10⁻¹⁵ ≤ 1e-12`, so the second
`Invert` takes the degenerate branch and returns `Zero`. -/
theorem Invert_Invert_counterexample :
    1 / 10 ^ 6 < |(toMat largeScaleMatrix).det| ∧
      Invert (Invert largeScaleMatrix) = Zero ∧
      Invert (Invert largeScaleMatrix) ≠ largeScaleMatrix := by
  have hz : Invert (Invert largeScaleMatrix) = Zero := by
    rw [Invert_largeScaleMatrix]
    exact Invert_of_le _ (by norm_num [InvertDet, abs_div])
  refine ⟨?_, hz, ?_⟩
  · rw [← GetDeterminant_eq_det]
    norm_num [GetDeterminant, largeScaleMatrix]
  · rw [hz]
    simp [Zero, largeScaleMatrix]

/-- C3, amended: for every matrix `m` with `1e-6 < |det m| < 1e12`,
`Invert (Invert m)` equals `m` exactly. -/
theorem Invert_Invert (m : Matrix K) (h1 : 1 / 10 ^ 6 < |(toMat m).det|)
    (h2 : |(toMat m).det| < 10 ^ 12) : Invert (Invert m) = m := by
  have h0 : (1 : K) / 10 ^ 12 < 1 / 10 ^ 6 := by norm_num
  exact double_Invert_of_bounds m (lt_trans h0 h1) h2

theorem Invert_Invert_witness :
    1 / 10 ^ 6 < |(toMat sampleMatrix).det| ∧ |(toMat sampleMatrix).det| < 10 ^ 12 ∧
      Invert (Invert sampleMatrix) = sampleMatrix :=
  ⟨by rw [sampleMatrix_det]; norm_num, by rw [sampleMatrix_det]; norm_num,
   Invert_Invert sampleMatrix (by rw [sampleMatrix_det]; norm_num)
     (by rw [sampleMatrix_det]; norm_num)⟩

/-- C4: `Transpose` is a true transpose and an involution.  Both overloads
return the matrix whose entry `(i, j)` is entry `(j, i)` of the argument, the
two overloads agree (whatever `result` held before), and transposing twice
returns the argument exactly. -/
theorem Transpose_involution (m result : Matrix K) :
    (∀ i j, (Transpose m).Values i j = m.Values j i) ∧
    (∀ i j, (TransposeOut m result).Values i j = m.Values j i) ∧
    TransposeOut m result = Transpose m ∧
    Transpose (Transpose m) = m ∧
    TransposeOut (TransposeOut m result) result = m :=
  ⟨Values_Transpose m, Values_Transpose m, rfl, rfl, rfl⟩

/-- C5: `GetDeterminant` is the determinant of the 4x4 matrix (Mathlib's
Leibniz-formula `Matrix.det` of the same sixteen entries), for every matrix; in
particular it is `1` on `Identity` and `0` on `Zero`. -/
theorem GetDeterminant_is_det (K : Type) [LinearOrderedField K] :
    (∀ m : Matrix K, m.GetDeterminant = (toMat m).det) ∧
    GetDeterminant (Identity : Matrix K) = 1 ∧
    GetDeterminant (Zero : Matrix K) = 0 :=
  ⟨GetDeterminant_eq_det, GetDeterminant_Identity, GetDeterminant_Zero⟩

/-- C6: pure rotation builders have no reflection.  Given a cosine and sine with
`cos a ^ 2 + sin a ^ 2 = 1`, `RotDeterminant` is `1` on `RotationX`, `RotationY`
and `RotationZ` of every angle, on `RotationQuaternion` of every unit
quaternion, and on `RotationAxis` of every unit axis and every angle. -/
theorem RotDeterminant_rotation (cos sin : K → K)
    (hcs : ∀ a, cos a * cos a + sin a * sin a = 1) :
    (∀ a, RotDeterminant (RotationX cos sin a) = 1) ∧
    (∀ a, RotDeterminant (RotationY cos sin a) = 1) ∧
    (∀ a, RotDeterminant (RotationZ cos sin a) = 1) ∧
    (∀ q : Quaternion K, q.X * q.X + q.Y * q.Y + q.Z * q.Z + q.W * q.W = 1 →
      RotDeterminant (RotationQuaternion q) = 1) ∧
    (∀ (axis : Vector3 K) (a : K), axis.X * axis.X + axis.Y * axis.Y + axis.Z * axis.Z = 1 →
      RotDeterminant (RotationAxis cos sin axis a) = 1) :=
  ⟨fun a => RotDeterminant_RotationX cos sin a (hcs a),
   fun a => RotDeterminant_RotationY cos sin a (hcs a),
   fun a => RotDeterminant_RotationZ cos sin a (hcs a),
   fun q hq => RotDeterminant_RotationQuaternion q hq,
   fun axis a haxis => RotDeterminant_RotationAxis cos sin axis a (hcs a) haxis⟩

theorem RotDeterminant_rotation_witness :
    (∀ a, ratCos a * ratCos a + ratSin a * ratSin a = 1) ∧
      RotDeterminant (RotationX ratCos ratSin 2) = 1 ∧
      RotDeterminant (RotationY ratCos ratSin 2) = 1 ∧
      RotDeterminant (RotationZ ratCos ratSin 2) = 1 ∧
      RotDeterminant (RotationQuaternion sampleQuaternion) = 1 ∧
      RotDeterminant (RotationAxis ratCos ratSin sampleAxis 2) = 1 :=
  ⟨ratCos_sq_add_ratSin_sq,
   (RotDeterminant_rotation ratCos ratSin ratCos_sq_add_ratSin_sq).1 2,
   (RotDeterminant_rotation ratCos ratSin ratCos_sq_add_ratSin_sq).2.1 2,
   (RotDeterminant_rotation ratCos ratSin ratCos_sq_add_ratSin_sq).2.2.1 2,
   (RotDeterminant_rotation ratCos ratSin ratCos_sq_add_ratSin_sq).2.2.2.1
     sampleQuaternion sampleQuaternion_unit,
   (RotDeterminant_rotation ratCos ratSin ratCos_sq_add_ratSin_sq).2.2.2.2
     sampleAxis 2 sampleAxis_unit⟩

/-- C7: `RotationQuaternion` of a unit quaternion preserves length.  For every
unit quaternion `q` and every vector `v`, the `X`, `Y`, `Z` components of
`TransformPosition (RotationQuaternion q) v` have the squared length of `v`, the
`W` component is `1`, and the matrix times its transpose is `Identity` (so its
3x3 block `R` satisfies `R * Rᵀ = I`). -/
theorem RotationQuaternion_preserves_length (q : Quaternion K)
    (hq : q.X * q.X + q.Y * q.Y + q.Z * q.Z + q.W * q.W = 1) (v : Vector3 K) :
    (TransformPosition (RotationQuaternion q) v).X * (TransformPosition (RotationQuaternion q) v).X +
      (TransformPosition (RotationQuaternion q) v).Y * (TransformPosition (RotationQuaternion q) v).Y +
      (TransformPosition (RotationQuaternion q) v).Z * (TransformPosition (RotationQuaternion q) v).Z =
      v.X * v.X + v.Y * v.Y + v.Z * v.Z ∧
    (TransformPosition (RotationQuaternion q) v).W = 1 ∧
    Multiply (RotationQuaternion q) (Transpose (RotationQuaternion q)) = Identity :=
  ⟨TransformPosition_RotationQuaternion_sq q hq v, TransformPosition_RotationQuaternion_W q v,
   RotationQuaternion_mul_Transpose q hq⟩

theorem RotationQuaternion_preserves_length_witness :
    (TransformPosition (RotationQuaternion sampleQuaternion) ⟨1, 2, 3⟩).X *
        (TransformPosition (RotationQuaternion sampleQuaternion) ⟨1, 2, 3⟩).X +
      (TransformPosition (RotationQuaternion sampleQuaternion) ⟨1, 2, 3⟩).Y *
        (TransformPosition (RotationQuaternion sampleQuaternion) ⟨1, 2, 3⟩).Y +
      (TransformPosition (RotationQuaternion sampleQuaternion) ⟨1, 2, 3⟩).Z *
        (TransformPosition (RotationQuaternion sampleQuaternion) ⟨1, 2, 3⟩).Z =
      1 * 1 + 2 * 2 + 3 * 3 ∧
    (TransformPosition (RotationQuaternion sampleQuaternion) ⟨1, 2, 3⟩).W = 1 ∧
    Multiply (RotationQuaternion sampleQuaternion)
      (Transpose (RotationQuaternion sampleQuaternion)) = Identity :=
  RotationQuaternion_preserves_length sampleQuaternion sampleQuaternion_unit ⟨1, 2, 3⟩

/-- C8: `RotationAxis` and both overloads of `CreateFromAxisAngle` produce the
same sixteen entries for every axis (unit or not) and every angle, with last
row and last column `(0, 0, 0, 1)`. -/
theorem RotationAxis_eq_CreateFromAxisAngle (cos sin : K → K) (axis : Vector3 K) (angle : K)
    (result : Matrix K) :
    RotationAxis cos sin axis angle = CreateFromAxisAngle cos sin axis angle ∧
    CreateFromAxisAngleOut cos sin axis angle result = CreateFromAxisAngle cos sin axis angle ∧
    (RotationAxis cos sin axis angle).M14 = 0 ∧ (RotationAxis cos sin axis angle).M24 = 0 ∧
    (RotationAxis cos sin axis angle).M34 = 0 ∧ (RotationAxis cos sin axis angle).M41 = 0 ∧
    (RotationAxis cos sin axis angle).M42 = 0 ∧ (RotationAxis cos sin axis angle).M43 = 0 ∧
    (RotationAxis cos sin axis angle).M44 = 1 :=
  ⟨rfl, rfl, rfl, rfl, rfl, rfl, rfl, rfl, rfl⟩

/-- C9: the direct `Transformation` builder equals the composed product
`Scaling s * RotationQuaternion q * Translation t` (row-by-column product, left
factor applied first), for every scale, quaternion and translation. -/
theorem Transformation_eq_product (s : Vector3 K) (q : Quaternion K) (t : Vector3 K) :
    Transformation s q t =
      Multiply (Multiply (Scaling s) (RotationQuaternion q)) (Translation t) := by
  ext <;> simp only [Transformation, Multiply, Scaling, RotationQuaternion, Translation,
    Identity] <;> ring

/-- C10: `Decompose` undoes `Transformation`.  With a square root satisfying
`sqrt (x * x) = x` for `x ≥ 0`, for every scale `s` with positive components,
every unit quaternion `q` and every translation `t`, decomposing
`Transformation s q t` yields translation `t`, scale `s` (no component negated)
and rotation matrix `RotationQuaternion q`. -/
theorem Decompose_Transformation (sqrt : K → K)
    (hsqrt : ∀ x : K, 0 ≤ x → sqrt (x * x) = x)
    (s : Vector3 K) (q : Quaternion K) (t : Vector3 K)
    (hx : 0 < s.X) (hy : 0 < s.Y) (hz : 0 < s.Z)
    (hq : q.X * q.X + q.Y * q.Y + q.Z * q.Z + q.W * q.W = 1) :
    (Decompose sqrt (Transformation s q t)).translation = t ∧
    (Decompose sqrt (Transformation s q t)).scale = s ∧
    (Decompose sqrt (Transformation s q t)).rotation = RotationQuaternion q := by
  rw [Decompose_of_Transformation sqrt hsqrt s q t hx hy hz hq]
  exact ⟨rfl, rfl, rfl⟩

theorem Decompose_Transformation_witness :
    (Decompose Rat.sqrt (Transformation ⟨2, 3, 4⟩ sampleQuaternion ⟨5, 6, 7⟩)).translation =
        ⟨5, 6, 7⟩ ∧
      (Decompose Rat.sqrt (Transformation ⟨2, 3, 4⟩ sampleQuaternion ⟨5, 6, 7⟩)).scale =
        ⟨2, 3, 4⟩ ∧
      (Decompose Rat.sqrt (Transformation ⟨2, 3, 4⟩ sampleQuaternion ⟨5, 6, 7⟩)).rotation =
        RotationQuaternion sampleQuaternion :=
  Decompose_Transformation Rat.sqrt Rat_sqrt_mul_self ⟨2, 3, 4⟩ sampleQuaternion ⟨5, 6, 7⟩
    (by norm_num) (by norm_num) (by norm_num) sampleQuaternion_unit

/-- C11: the zero-scale terminal case of `Decompose`.  When at least one of the
three row lengths is exactly `0`, the rotation is `Identity`, the translation is
`(M41, M42, M43)` and the scale is the three non-negated row lengths, the same
scale and translation as the two-output `Decompose` returns. -/
theorem Decompose_zero_scale (sqrt : K → K) (m : Matrix K)
    (h : sqrt (m.M11 * m.M11 + m.M12 * m.M12 + m.M13 * m.M13) = 0 ∨
      sqrt (m.M21 * m.M21 + m.M22 * m.M22 + m.M23 * m.M23) = 0 ∨
      sqrt (m.M31 * m.M31 + m.M32 * m.M32 + m.M33 * m.M33) = 0) :
    (Decompose sqrt m).rotation = Identity ∧
    (Decompose sqrt m).translation = ⟨m.M41, m.M42, m.M43⟩ ∧
    (Decompose sqrt m).scale =
      ⟨sqrt (m.M11 * m.M11 + m.M12 * m.M12 + m.M13 * m.M13),
       sqrt (m.M21 * m.M21 + m.M22 * m.M22 + m.M23 * m.M23),
       sqrt (m.M31 * m.M31 + m.M32 * m.M32 + m.M33 * m.M33)⟩ ∧
    (Decompose sqrt m).scale = (DecomposeScaleTranslation sqrt m).scale ∧
    (Decompose sqrt m).translation = (DecomposeScaleTranslation sqrt m).translation := by
  rw [Decompose_of_zero sqrt m h]
  exact ⟨rfl, rfl, rfl, rfl, rfl⟩

theorem Decompose_zero_scale_witness :
    (Decompose Rat.sqrt zeroScaleMatrix).rotation = Identity ∧
      (Decompose Rat.sqrt zeroScaleMatrix).translation = ⟨7, 8, 9⟩ ∧
      (Decompose Rat.sqrt zeroScaleMatrix).scale = ⟨Rat.sqrt (3 * 3 + 4 * 4 + 0 * 0),
        Rat.sqrt (0 * 0 + 2 * 2 + 0 * 0), Rat.sqrt (0 * 0 + 0 * 0 + 0 * 0)⟩ ∧
      (Decompose Rat.sqrt zeroScaleMatrix).scale =
        (DecomposeScaleTranslation Rat.sqrt zeroScaleMatrix).scale ∧
      (Decompose Rat.sqrt zeroScaleMatrix).translation =
        (DecomposeScaleTranslation Rat.sqrt zeroScaleMatrix).translation :=
  Decompose_zero_scale Rat.sqrt zeroScaleMatrix
    (Or.inr (Or.inr (by norm_num [zeroScaleMatrix, Rat_sqrt_zero])))

/-- C12, as stated, fails at a zero dot product: for the matrix with rows
`(1,0,0)`, `(1,0,0)`, `(0,0,1)` all three row lengths are `1`, the dot product
of the recovered up axis `(0,1,0)` with row 2 is `0` (not negative), and yet the
returned `scale.Y` is the negated length `-1`. -/
theorem Decompose_reflection_counterexample :
    Rat.sqrt (repeatedRowMatrix.M11 * repeatedRowMatrix.M11 +
        repeatedRowMatrix.M12 * repeatedRowMatrix.M12 +
        repeatedRowMatrix.M13 * repeatedRowMatrix.M13) ≠ 0 ∧
      Rat.sqrt (repeatedRowMatrix.M21 * repeatedRowMatrix.M21 +
        repeatedRowMatrix.M22 * repeatedRowMatrix.M22 +
        repeatedRowMatrix.M23 * repeatedRowMatrix.M23) = 1 ∧
      Rat.sqrt (repeatedRowMatrix.M31 * repeatedRowMatrix.M31 +
        repeatedRowMatrix.M32 * repeatedRowMatrix.M32 +
        repeatedRowMatrix.M33 * repeatedRowMatrix.M33) ≠ 0 ∧
      ¬ Vector3.Dot (Decompose Rat.sqrt repeatedRowMatrix).rotation.GetUp
          repeatedRowMatrix.GetUp < 0 ∧
      (Decompose Rat.sqrt repeatedRowMatrix).scale.Y = -1 := by
  rw [Decompose_repeatedRowMatrix]
  norm_num [repeatedRowMatrix, Rat_sqrt_one, Vector3.Dot, GetUp, Identity]

/-- C12, amended: for every matrix whose three row lengths are non-zero and for
each axis, the returned scale component is the (positive) row length if the dot
product of the recovered axis with the original row is positive, and the
negated row length otherwise (dot product negative or zero). -/
theorem Decompose_reflection (sqrt : K → K) (m : Matrix K) (hnn : ∀ x, 0 ≤ sqrt x)
    (h1 : sqrt (m.M11 * m.M11 + m.M12 * m.M12 + m.M13 * m.M13) ≠ 0)
    (h2 : sqrt (m.M21 * m.M21 + m.M22 * m.M22 + m.M23 * m.M23) ≠ 0)
    (h3 : sqrt (m.M31 * m.M31 + m.M32 * m.M32 + m.M33 * m.M33) ≠ 0) :
    (0 < sqrt (m.M11 * m.M11 + m.M12 * m.M12 + m.M13 * m.M13) ∧
      0 < sqrt (m.M21 * m.M21 + m.M22 * m.M22 + m.M23 * m.M23) ∧
      0 < sqrt (m.M31 * m.M31 + m.M32 * m.M32 + m.M33 * m.M33)) ∧
    (Decompose sqrt m).scale.X =
      (if Vector3.Dot (Decompose sqrt m).rotation.GetRight m.GetRight > 0
        then sqrt (m.M11 * m.M11 + m.M12 * m.M12 + m.M13 * m.M13)
        else -sqrt (m.M11 * m.M11 + m.M12 * m.M12 + m.M13 * m.M13)) ∧
    (Decompose sqrt m).scale.Y =
      (if Vector3.Dot (Decompose sqrt m).rotation.GetUp m.GetUp > 0
        then sqrt (m.M21 * m.M21 + m.M22 * m.M22 + m.M23 * m.M23)
        else -sqrt (m.M21 * m.M21 + m.M22 * m.M22 + m.M23 * m.M23)) ∧
    (Decompose sqrt m).scale.Z =
      (if Vector3.Dot (Decompose sqrt m).rotation.GetBackward m.GetBackward > 0
        then sqrt (m.M31 * m.M31 + m.M32 * m.M32 + m.M33 * m.M33)
        else -sqrt (m.M31 * m.M31 + m.M32 * m.M32 + m.M33 * m.M33)) := by
  have h := Decompose_of_nonzero sqrt m h1 h2 h3
  exact ⟨⟨lt_of_le_of_ne (hnn _) (Ne.symm h1), lt_of_le_of_ne (hnn _) (Ne.symm h2),
      lt_of_le_of_ne (hnn _) (Ne.symm h3)⟩,
    congrArg (fun d => d.scale.X) h, congrArg (fun d => d.scale.Y) h,
    congrArg (fun d => d.scale.Z) h⟩

theorem Decompose_reflection_witness :
    (Decompose Rat.sqrt repeatedRowMatrix).scale.Y =
      (if Vector3.Dot (Decompose Rat.sqrt repeatedRowMatrix).rotation.GetUp
          repeatedRowMatrix.GetUp > 0
        then Rat.sqrt (repeatedRowMatrix.M21 * repeatedRowMatrix.M21 +
          repeatedRowMatrix.M22 * repeatedRowMatrix.M22 +
          repeatedRowMatrix.M23 * repeatedRowMatrix.M23)
        else -Rat.sqrt (repeatedRowMatrix.M21 * repeatedRowMatrix.M21 +
          repeatedRowMatrix.M22 * repeatedRowMatrix.M22 +
          repeatedRowMatrix.M23 * repeatedRowMatrix.M23)) :=
  (Decompose_reflection Rat.sqrt repeatedRowMatrix Rat.sqrt_nonneg
    (by norm_num [repeatedRowMatrix, Rat_sqrt_one])
    (by norm_num [repeatedRowMatrix, Rat_sqrt_one])
    (by norm_num [repeatedRowMatrix, Rat_sqrt_one])).2.2.1

/-- C13 fails on the code: for the sheared matrix with rows `(3/5, 0, 4/5)`,
`(0, 1, 0)`, `(0, 0, 1)`, all of length `1`, the rotation written by `Decompose`
has right row `(3/5, 0, 0)` and up row `(0, 3/5, 0)`, of squared length `9/25`
instead of `1`. -/
theorem Decompose_sheared_not_orthonormal :
    (Decompose Rat.sqrt shearedMatrix).rotation.GetRight = ⟨3 / 5, 0, 0⟩ ∧
      (Decompose Rat.sqrt shearedMatrix).rotation.GetUp = ⟨0, 3 / 5, 0⟩ ∧
      (Decompose Rat.sqrt shearedMatrix).rotation.GetBackward = ⟨0, 0, 1⟩ ∧
      Vector3.LengthSquared (Decompose Rat.sqrt shearedMatrix).rotation.GetRight = 9 / 25 ∧
      Vector3.LengthSquared (Decompose Rat.sqrt shearedMatrix).rotation.GetUp = 9 / 25 := by
  rw [Decompose_shearedMatrix]
  norm_num [GetRight, GetUp, GetBackward, Vector3.LengthSquared]

/-- C14, as stated, fails at the boundary: with `rotationVec = (0, 1/1000, 0)`,
`transVec = (1, 0, 0)` and angle `0` the denominator `rr0` is exactly `1e-6`,
and `Skew` passes its assertion and writes `Identity`. -/
theorem Skew_counterexample :
    SkewRr0 ratCos ratSin ratNormalize 0 ⟨0, 1 / 1000, 0⟩ ⟨1, 0, 0⟩ = 1 / 1000000 ∧
      Skew ratCos ratSin ratNormalize 0 ⟨0, 1 / 1000, 0⟩ ⟨1, 0, 0⟩ = some Identity := by
  constructor
  · norm_num [SkewRr0, ratNormalize_unitX, ratCos, ratSin, Vector3.Dot, Vector3.Add,
      Vector3.Scale]
  · norm_num [Skew, ratNormalize_unitX, ratCos, ratSin, Vector3.Dot, Vector3.Add,
      Vector3.Scale, Identity]

/-- C14, amended: for every angle, `rotationVec` and `transVec`, `Skew` fails its
assertion exactly when `rr0 < 1e-6`, and succeeds (writes a matrix) exactly when
`rr0 ≥ 1e-6`. -/
theorem Skew_assertion (cos sin : K → K) (normalize : Vector3 K → Vector3 K) (angle : K)
    (rotationVec transVec : Vector3 K) :
    (Skew cos sin normalize angle rotationVec transVec = none ↔
      SkewRr0 cos sin normalize angle rotationVec transVec < 1 / 1000000) ∧
    ((Skew cos sin normalize angle rotationVec transVec).isSome = true ↔
      1 / 1000000 ≤ SkewRr0 cos sin normalize angle rotationVec transVec) :=
  ⟨Skew_eq_none_iff cos sin normalize angle rotationVec transVec,
   Skew_isSome_iff cos sin normalize angle rotationVec transVec⟩

/-- C15: `LookAt` sends the eye to the view-space origin.  For every eye, target
and up vector, and whatever `Vector3::Normalize` does to the basis vectors,
`TransformPosition (LookAt eye target up) eye = (0, 0, 0, 1)`. -/
theorem LookAt_eye (normalize : Vector3 K → Vector3 K) (eye target up : Vector3 K) :
    TransformPosition (LookAt normalize eye target up) eye = ⟨0, 0, 0, 1⟩ := by
  ext <;> simp only [TransformPosition, LookAt, Identity, Vector3.Dot, Values_00, Values_01,
    Values_02, Values_03, Values_10, Values_11, Values_12, Values_13, Values_20, Values_21,
    Values_22, Values_23, Values_30, Values_31, Values_32, Values_33] <;> ring

/-- C16: `Translation` is the identity with row 4 `(v.X, v.Y, v.Z, 1)` in all
three overloads, and it translates points: `TransformPosition (Translation t) p`
is `(p.X + t.X, p.Y + t.Y, p.Z + t.Z, 1)`; `Translation (1,2,3)` maps `(0,0,0)`
to `(1,2,3,1)`. -/
theorem Translation_spec (K : Type) [LinearOrderedField K] :
    (∀ v : Vector3 K, Translation v =
      ⟨1, 0, 0, 0, 0, 1, 0, 0, 0, 0, 1, 0, v.X, v.Y, v.Z, 1⟩) ∧
    (∀ (v : Vector3 K) (result : Matrix K), TranslationOut v result = Translation v) ∧
    (∀ (x y z : K) (result : Matrix K), TranslationXYZ x y z result = Translation ⟨x, y, z⟩) ∧
    (∀ t p : Vector3 K, TransformPosition (Translation t) p =
      ⟨p.X + t.X, p.Y + t.Y, p.Z + t.Z, 1⟩) ∧
    TransformPosition (Translation (⟨1, 2, 3⟩ : Vector3 K)) ⟨0, 0, 0⟩ = ⟨1, 2, 3, 1⟩ := by
  have h : ∀ t p : Vector3 K, TransformPosition (Translation t) p =
      ⟨p.X + t.X, p.Y + t.Y, p.Z + t.Z, 1⟩ := by
    intro t p
    ext <;> simp only [TransformPosition, Translation, Identity, Values_00, Values_01,
      Values_02, Values_03, Values_10, Values_11, Values_12, Values_13, Values_20, Values_21,
      Values_22, Values_23, Values_30, Values_31, Values_32, Values_33] <;> ring
  refine ⟨fun v => rfl, fun v result => rfl, fun x y z result => rfl, h, ?_⟩
  rw [h]
  ext <;> simp only [zero_add]

/-- C17, as stated, fails when `left = right`: `OrthoOffCenter 1 1 0 1 0 1`
(with `zNear = 0 ≠ 1 = zFar`) has the zero denominator `right - left`, and the
corner `(left, bottom, zNear) = (1, 0, 0)` is not sent to `x = -1`. -/
theorem OrthoOffCenter_counterexample :
    (0 : ℚ) ≠ 1 ∧
      (TransformPosition4 (OrthoOffCenter (1 : ℚ) 1 0 1 0 1) ⟨1, 0, 0, 1⟩).X = 0 ∧
      TransformPosition4 (OrthoOffCenter (1 : ℚ) 1 0 1 0 1) ⟨1, 0, 0, 1⟩ ≠ ⟨-1, -1, 0, 1⟩ := by
  have h : TransformPosition4 (OrthoOffCenter (1 : ℚ) 1 0 1 0 1) ⟨1, 0, 0, 1⟩ =
      ⟨0, -1, 0, 1⟩ := by
    norm_num [TransformPosition4, OrthoOffCenter, Identity]
  rw [h]
  norm_num

/-- C17, amended: for `zNear ≠ zFar`, and `left ≠ right`, `bottom ≠ top` for the
orthographic case, and `zNear, zFar ≠ 0` for the perspective case:
`OrthoOffCenter` maps `(left, bottom, zNear)` to `(-1, -1, 0)` and
`(right, top, zFar)` to `(1, 1, 1)` (with `w = 1`), and `PerspectiveOffCenter`
maps every point with `z = zNear` to depth `z/w = 0` and every point with
`z = zFar` to depth `z/w = 1`, with `w` equal to the input `z`. -/
theorem Projection_depth_range (left right bottom top zNear zFar : K)
    (hz : zNear ≠ zFar) :
    (left ≠ right → bottom ≠ top →
      TransformPosition4 (OrthoOffCenter left right bottom top zNear zFar)
          ⟨left, bottom, zNear, 1⟩ = ⟨-1, -1, 0, 1⟩ ∧
      TransformPosition4 (OrthoOffCenter left right bottom top zNear zFar)
          ⟨right, top, zFar, 1⟩ = ⟨1, 1, 1, 1⟩) ∧
    (zNear ≠ 0 → zFar ≠ 0 → ∀ x y : K,
      (TransformPosition4 (PerspectiveOffCenter left right bottom top zNear zFar)
          ⟨x, y, zNear, 1⟩).W = zNear ∧
      (TransformPosition4 (PerspectiveOffCenter left right bottom top zNear zFar)
          ⟨x, y, zNear, 1⟩).Z /
        (TransformPosition4 (PerspectiveOffCenter left right bottom top zNear zFar)
          ⟨x, y, zNear, 1⟩).W = 0 ∧
      (TransformPosition4 (PerspectiveOffCenter left right bottom top zNear zFar)
          ⟨x, y, zFar, 1⟩).W = zFar ∧
      (TransformPosition4 (PerspectiveOffCenter left right bottom top zNear zFar)
          ⟨x, y, zFar, 1⟩).Z /
        (TransformPosition4 (PerspectiveOffCenter left right bottom top zNear zFar)
          ⟨x, y, zFar, 1⟩).W = 1) :=
  ⟨fun hlr hbt => OrthoOffCenter_corners left right bottom top zNear zFar hz hlr hbt,
   fun hn hf x y => PerspectiveOffCenter_depth left right bottom top zNear zFar hz hn hf x y⟩

theorem Projection_depth_range_witness :
    (TransformPosition4 (OrthoOffCenter (-2 : ℚ) 2 (-1) 1 1 10) ⟨-2, -1, 1, 1⟩ =
        ⟨-1, -1, 0, 1⟩ ∧
      TransformPosition4 (OrthoOffCenter (-2 : ℚ) 2 (-1) 1 1 10) ⟨2, 1, 10, 1⟩ =
        ⟨1, 1, 1, 1⟩) ∧
    ((TransformPosition4 (PerspectiveOffCenter (-2 : ℚ) 2 (-1) 1 1 10) ⟨3, 4, 1, 1⟩).W = 1 ∧
      (TransformPosition4 (PerspectiveOffCenter (-2 : ℚ) 2 (-1) 1 1 10) ⟨3, 4, 1, 1⟩).Z /
        (TransformPosition4 (PerspectiveOffCenter (-2 : ℚ) 2 (-1) 1 1 10) ⟨3, 4, 1, 1⟩).W = 0 ∧
      (TransformPosition4 (PerspectiveOffCenter (-2 : ℚ) 2 (-1) 1 1 10) ⟨3, 4, 10, 1⟩).W = 10 ∧
      (TransformPosition4 (PerspectiveOffCenter (-2 : ℚ) 2 (-1) 1 1 10) ⟨3, 4, 10, 1⟩).Z /
        (TransformPosition4 (PerspectiveOffCenter (-2 : ℚ) 2 (-1) 1 1 10) ⟨3, 4, 10, 1⟩).W = 1) :=
  ⟨(Projection_depth_range (-2 : ℚ) 2 (-1) 1 1 10 (by norm_num)).1 (by norm_num) (by norm_num),
   (Projection_depth_range (-2 : ℚ) 2 (-1) 1 1 10 (by norm_num)).2 (by norm_num) (by norm_num)
     3 4⟩

/-- C18: the coincident-position fallback of `Billboard`.  When the camera
position equals the object position (and `Math::IsZero` accepts `0`), row 3 is
`(-cameraForward, 0)`, row 4 is `(objectPosition, 1)`, `M14 = M24 = 0`, and the
result does not depend on `Math::Sqrt` (no division by the zero length). -/
theorem Billboard_coincident (sqrt : K → K) (isZero : K → Bool)
    (normalize : Vector3 K → Vector3 K) (h0 : isZero 0 = true)
    (objectPosition cameraUpVector cameraForwardVector : Vector3 K) :
    (Billboard sqrt isZero normalize objectPosition objectPosition cameraUpVector
      cameraForwardVector).GetBackward = cameraForwardVector.Negate ∧
    (Billboard sqrt isZero normalize objectPosition objectPosition cameraUpVector
      cameraForwardVector).M34 = 0 ∧
    (Billboard sqrt isZero normalize objectPosition objectPosition cameraUpVector
      cameraForwardVector).M41 = objectPosition.X ∧
    (Billboard sqrt isZero normalize objectPosition objectPosition cameraUpVector
      cameraForwardVector).M42 = objectPosition.Y ∧
    (Billboard sqrt isZero normalize objectPosition objectPosition cameraUpVector
      cameraForwardVector).M43 = objectPosition.Z ∧
    (Billboard sqrt isZero normalize objectPosition objectPosition cameraUpVector
      cameraForwardVector).M44 = 1 ∧
    (Billboard sqrt isZero normalize objectPosition objectPosition cameraUpVector
      cameraForwardVector).M14 = 0 ∧
    (Billboard sqrt isZero normalize objectPosition objectPosition cameraUpVector
      cameraForwardVector).M24 = 0 ∧
    (∀ sqrt2 : K → K,
      Billboard sqrt2 isZero normalize objectPosition objectPosition cameraUpVector
        cameraForwardVector =
      Billboard sqrt isZero normalize objectPosition objectPosition cameraUpVector
        cameraForwardVector) := by
  rw [Billboard_of_coincident sqrt isZero normalize h0]
  exact ⟨rfl, rfl, rfl, rfl, rfl, rfl, rfl, rfl,
    fun sqrt2 => Billboard_of_coincident sqrt2 isZero normalize h0 _ _ _⟩

theorem Billboard_coincident_witness :
    (Billboard Rat.sqrt ratIsZero ratNormalize ⟨1, 2, 3⟩ ⟨1, 2, 3⟩ ⟨0, 1, 0⟩
        ⟨0, 0, 1⟩).GetBackward = ⟨0, 0, -1⟩ ∧
      (Billboard Rat.sqrt ratIsZero ratNormalize ⟨1, 2, 3⟩ ⟨1, 2, 3⟩ ⟨0, 1, 0⟩
        ⟨0, 0, 1⟩).M41 = 1 := by
  have h := Billboard_coincident Rat.sqrt ratIsZero ratNormalize
    (by norm_num [ratIsZero]) ⟨1, 2, 3⟩ ⟨0, 1, 0⟩ ⟨0, 0, 1⟩
  refine ⟨?_, h.2.2.1⟩
  rw [h.1]
  norm_num [Vector3.Negate]

/-- C19: the Euler-angle `Decompose`.  `pitch = asin(-M32)`; if
`cos(pitch) > 1e-12` then `roll = atan2(M12, M22)` and `yaw = atan2(M31, M33)`;
otherwise `yaw = 0` and `roll = atan2(-M21, M11)`, in particular whenever
`M32 = -1` or `M32 = 1` (where `cos(asin(±1))` is `0`, hence at most `1e-12`).
Only the seven entries named here influence the result. -/
theorem DecomposeYawPitchRoll_spec (asin cos : K → K) (atan2 : K → K → K)
    (h1 : cos (asin 1) ≤ 1 / 10 ^ 12) (h2 : cos (asin (-1)) ≤ 1 / 10 ^ 12) :
    (∀ m : Matrix K, (DecomposeYawPitchRoll asin cos atan2 m).pitch = asin (-m.M32)) ∧
    (∀ m : Matrix K, cos (asin (-m.M32)) > 1 / 10 ^ 12 →
      (DecomposeYawPitchRoll asin cos atan2 m).roll = atan2 m.M12 m.M22 ∧
      (DecomposeYawPitchRoll asin cos atan2 m).yaw = atan2 m.M31 m.M33) ∧
    (∀ m : Matrix K, ¬ cos (asin (-m.M32)) > 1 / 10 ^ 12 →
      (DecomposeYawPitchRoll asin cos atan2 m).yaw = 0 ∧
      (DecomposeYawPitchRoll asin cos atan2 m).roll = atan2 (-m.M21) m.M11) ∧
    (∀ m : Matrix K, m.M32 = -1 ∨ m.M32 = 1 →
      (DecomposeYawPitchRoll asin cos atan2 m).yaw = 0 ∧
      (DecomposeYawPitchRoll asin cos atan2 m).roll = atan2 (-m.M21) m.M11) ∧
    (∀ m n : Matrix K, m.M11 = n.M11 → m.M12 = n.M12 → m.M21 = n.M21 → m.M22 = n.M22 →
      m.M31 = n.M31 → m.M32 = n.M32 → m.M33 = n.M33 →
      DecomposeYawPitchRoll asin cos atan2 m = DecomposeYawPitchRoll asin cos atan2 n) := by
  have hneg : ∀ m : Matrix K, ¬ cos (asin (-m.M32)) > 1 / 10 ^ 12 →
      (DecomposeYawPitchRoll asin cos atan2 m).yaw = 0 ∧
      (DecomposeYawPitchRoll asin cos atan2 m).roll = atan2 (-m.M21) m.M11 := by
    intro m h
    rw [DecomposeYawPitchRoll_neg asin cos atan2 m h]
    exact ⟨rfl, rfl⟩
  refine ⟨?_, ?_, hneg, ?_, ?_⟩
  · intro m
    by_cases h : cos (asin (-m.M32)) > 1 / 10 ^ 12
    · rw [DecomposeYawPitchRoll_pos asin cos atan2 m h]
    · rw [DecomposeYawPitchRoll_neg asin cos atan2 m h]
  · intro m h
    rw [DecomposeYawPitchRoll_pos asin cos atan2 m h]
    exact ⟨rfl, rfl⟩
  · intro m h
    apply hneg
    rcases h with h | h
    · rw [h, neg_neg]
      exact not_lt.mpr h1
    · rw [h]
      exact not_lt.mpr h2
  · intro m n e11 e12 e21 e22 e31 e32 e33
    simp only [DecomposeYawPitchRoll, e11, e12, e21, e22, e31, e32, e33]

theorem DecomposeYawPitchRoll_spec_witness :
    ratCos (ratAsin 1) ≤ 1 / 10 ^ 12 ∧ ratCos (ratAsin (-1)) ≤ 1 / 10 ^ 12 ∧
      (DecomposeYawPitchRoll ratAsin ratCos ratAtan2 gimbalMatrix).yaw = 0 ∧
      (DecomposeYawPitchRoll ratAsin ratCos ratAtan2 gimbalMatrix).roll =
        ratAtan2 (-gimbalMatrix.M21) gimbalMatrix.M11 :=
  ⟨by norm_num [ratAsin_one, ratCos], by norm_num [ratAsin_neg_one, ratCos],
   (DecomposeYawPitchRoll_spec ratAsin ratCos ratAtan2 (by norm_num [ratAsin_one, ratCos])
     (by norm_num [ratAsin_neg_one, ratCos])).2.2.2.1 gimbalMatrix (Or.inl rfl)⟩

/-- C20: the determinant computed inside `Invert` equals `GetDeterminant` for
every matrix, so `Invert` returns `Zero` (its degenerate branch) exactly when
`|GetDeterminant m| ≤ 1e-12`. -/
theorem Invert_det_agrees (m : Matrix K) :
    m.InvertDet = m.GetDeterminant ∧
    (Invert m = Zero ↔ |m.GetDeterminant| ≤ 1 / 10 ^ 12) :=
  ⟨InvertDet_eq_GetDeterminant m, Invert_eq_Zero_iff m⟩

/-- C21: the Y sign of `Decompose` is the sign of `RotDeterminant`.  For every
matrix whose three row lengths are non-zero (with `Math::Sqrt` non-negative),
the Y sign test `dot(up, row2)` equals `RotDeterminant / (|row1| * |row3|)`;
the returned `scale.Y` is negative, equal to minus the length of row 2, if and
only if `RotDeterminant ≤ 0`, and is the positive length of row 2 if and only
if `RotDeterminant > 0`. -/
theorem Decompose_scaleY_sign (sqrt : K → K) (m : Matrix K) (hnn : ∀ x, 0 ≤ sqrt x)
    (h1 : sqrt (m.M11 * m.M11 + m.M12 * m.M12 + m.M13 * m.M13) ≠ 0)
    (h2 : sqrt (m.M21 * m.M21 + m.M22 * m.M22 + m.M23 * m.M23) ≠ 0)
    (h3 : sqrt (m.M31 * m.M31 + m.M32 * m.M32 + m.M33 * m.M33) ≠ 0) :
    Vector3.Dot (Decompose sqrt m).rotation.GetUp m.GetUp =
      m.RotDeterminant / (sqrt (m.M11 * m.M11 + m.M12 * m.M12 + m.M13 * m.M13) *
        sqrt (m.M31 * m.M31 + m.M32 * m.M32 + m.M33 * m.M33)) ∧
    ((Decompose sqrt m).scale.Y = -sqrt (m.M21 * m.M21 + m.M22 * m.M22 + m.M23 * m.M23) ↔
      m.RotDeterminant ≤ 0) ∧
    ((Decompose sqrt m).scale.Y < 0 ↔ m.RotDeterminant ≤ 0) ∧
    ((Decompose sqrt m).scale.Y = sqrt (m.M21 * m.M21 + m.M22 * m.M22 + m.M23 * m.M23) ↔
      0 < m.RotDeterminant) ∧
    (0 < (Decompose sqrt m).scale.Y ↔ 0 < m.RotDeterminant) := by
  have hU := (Decompose_sign_tests sqrt m h1 h2 h3).1
  have hY : (Decompose sqrt m).scale.Y =
      (if Vector3.Dot (Decompose sqrt m).rotation.GetUp m.GetUp > 0
        then sqrt (m.M21 * m.M21 + m.M22 * m.M22 + m.M23 * m.M23)
        else -sqrt (m.M21 * m.M21 + m.M22 * m.M22 + m.M23 * m.M23)) :=
    congrArg (fun d => d.scale.Y) (Decompose_of_nonzero sqrt m h1 h2 h3)
  have p1 := lt_of_le_of_ne (hnn _) (Ne.symm h1)
  have p2 := lt_of_le_of_ne (hnn _) (Ne.symm h2)
  have p3 := lt_of_le_of_ne (hnn _) (Ne.symm h3)
  have hiff : Vector3.Dot (Decompose sqrt m).rotation.GetUp m.GetUp > 0 ↔
      0 < m.RotDeterminant := by
    rw [hU]
    exact div_pos_iff_of_pos_right (mul_pos p1 p3)
  refine ⟨hU, ?_⟩
  by_cases hd : 0 < m.RotDeterminant
  · rw [hY, if_pos (hiff.mpr hd)]
    refine ⟨?_, ?_, ?_, ?_⟩
    · constructor
      · intro h
        linarith
      · intro h
        linarith
    · constructor
      · intro h
        linarith
      · intro h
        linarith
    · exact ⟨fun _ => hd, fun _ => rfl⟩
    · exact ⟨fun _ => hd, fun _ => p2⟩
  · rw [hY, if_neg (fun h => hd (hiff.mp h))]
    have hle := not_lt.mp hd
    refine ⟨?_, ?_, ?_, ?_⟩
    · exact ⟨fun _ => hle, fun _ => rfl⟩
    · exact ⟨fun _ => hle, fun _ => by linarith⟩
    · constructor
      · intro h
        linarith
      · intro h
        exact absurd h hd
    · constructor
      · intro h
        linarith
      · intro h
        exact absurd h hd

theorem Decompose_scaleY_sign_witness :
    ((Decompose Rat.sqrt mirrorMatrix).scale.Y < 0 ↔ mirrorMatrix.RotDeterminant ≤ 0) ∧
      mirrorMatrix.RotDeterminant = -1 :=
  ⟨(Decompose_scaleY_sign Rat.sqrt mirrorMatrix Rat.sqrt_nonneg
      (by norm_num [mirrorMatrix, Rat_sqrt_one])
      (by norm_num [mirrorMatrix, Rat_sqrt_one])
      (by norm_num [mirrorMatrix, Rat_sqrt_one])).2.2.1,
   by norm_num [mirrorMatrix, RotDeterminant]⟩

/-- C22: reflections are only reported on the Y axis.  For every matrix whose
three row lengths are non-zero (with `Math::Sqrt` non-negative and squaring back
to the squared lengths of rows 1 and 3): `dot(at, row3) = |row3| > 0`, so
`scale.Z` is the positive length of row 3; `dot(right, row1)` is
`|row1| * (1 - cos²)` of the angle between rows 1 and 3, hence non-negative;
`scale.X` is negated exactly when rows 1 and 3 are parallel (zero cross
product); so when they are not parallel neither `scale.X` nor `scale.Z` is
negated. -/
theorem Decompose_Y_only_reflection (sqrt : K → K) (m : Matrix K) (hnn : ∀ x, 0 ≤ sqrt x)
    (h1 : sqrt (m.M11 * m.M11 + m.M12 * m.M12 + m.M13 * m.M13) ≠ 0)
    (h2 : sqrt (m.M21 * m.M21 + m.M22 * m.M22 + m.M23 * m.M23) ≠ 0)
    (h3 : sqrt (m.M31 * m.M31 + m.M32 * m.M32 + m.M33 * m.M33) ≠ 0)
    (hsq1 : sqrt (m.M11 * m.M11 + m.M12 * m.M12 + m.M13 * m.M13) *
      sqrt (m.M11 * m.M11 + m.M12 * m.M12 + m.M13 * m.M13) =
      m.M11 * m.M11 + m.M12 * m.M12 + m.M13 * m.M13)
    (hsq3 : sqrt (m.M31 * m.M31 + m.M32 * m.M32 + m.M33 * m.M33) *
      sqrt (m.M31 * m.M31 + m.M32 * m.M32 + m.M33 * m.M33) =
      m.M31 * m.M31 + m.M32 * m.M32 + m.M33 * m.M33) :
    (Vector3.Dot (Decompose sqrt m).rotation.GetBackward m.GetBackward =
        sqrt (m.M31 * m.M31 + m.M32 * m.M32 + m.M33 * m.M33) ∧
      0 < sqrt (m.M31 * m.M31 + m.M32 * m.M32 + m.M33 * m.M33) ∧
      (Decompose sqrt m).scale.Z = sqrt (m.M31 * m.M31 + m.M32 * m.M32 + m.M33 * m.M33)) ∧
    (Vector3.Dot (Decompose sqrt m).rotation.GetRight m.GetRight =
        sqrt (m.M11 * m.M11 + m.M12 * m.M12 + m.M13 * m.M13) *
          (1 - (Vector3.Dot m.GetRight m.GetBackward /
              (sqrt (m.M11 * m.M11 + m.M12 * m.M12 + m.M13 * m.M13) *
                sqrt (m.M31 * m.M31 + m.M32 * m.M32 + m.M33 * m.M33))) *
            (Vector3.Dot m.GetRight m.GetBackward /
              (sqrt (m.M11 * m.M11 + m.M12 * m.M12 + m.M13 * m.M13) *
                sqrt (m.M31 * m.M31 + m.M32 * m.M32 + m.M33 * m.M33)))) ∧
      0 ≤ Vector3.Dot (Decompose sqrt m).rotation.GetRight m.GetRight) ∧
    ((Decompose sqrt m).scale.X = -sqrt (m.M11 * m.M11 + m.M12 * m.M12 + m.M13 * m.M13) ↔
      Vector3.Cross m.GetBackward m.GetRight = ⟨0, 0, 0⟩) ∧
    (Vector3.Cross m.GetBackward m.GetRight ≠ ⟨0, 0, 0⟩ →
      (Decompose sqrt m).scale.X = sqrt (m.M11 * m.M11 + m.M12 * m.M12 + m.M13 * m.M13) ∧
      (Decompose sqrt m).scale.Z = sqrt (m.M31 * m.M31 + m.M32 * m.M32 + m.M33 * m.M33)) := by
  obtain ⟨-, hR, hB⟩ := Decompose_sign_tests sqrt m h1 h2 h3
  have hD := Decompose_of_nonzero sqrt m h1 h2 h3
  have hX : (Decompose sqrt m).scale.X =
      (if Vector3.Dot (Decompose sqrt m).rotation.GetRight m.GetRight > 0
        then sqrt (m.M11 * m.M11 + m.M12 * m.M12 + m.M13 * m.M13)
        else -sqrt (m.M11 * m.M11 + m.M12 * m.M12 + m.M13 * m.M13)) :=
    congrArg (fun d => d.scale.X) hD
  have hZ : (Decompose sqrt m).scale.Z =
      (if Vector3.Dot (Decompose sqrt m).rotation.GetBackward m.GetBackward > 0
        then sqrt (m.M31 * m.M31 + m.M32 * m.M32 + m.M33 * m.M33)
        else -sqrt (m.M31 * m.M31 + m.M32 * m.M32 + m.M33 * m.M33)) :=
    congrArg (fun d => d.scale.Z) hD
  have p1 := lt_of_le_of_ne (hnn _) (Ne.symm h1)
  have p3 := lt_of_le_of_ne (hnn _) (Ne.symm h3)
  have hB2 : Vector3.Dot (Decompose sqrt m).rotation.GetBackward m.GetBackward =
      sqrt (m.M31 * m.M31 + m.M32 * m.M32 + m.M33 * m.M33) := by
    rw [hB]
    exact (div_eq_iff h3).mpr hsq3.symm
  have hZ2 : (Decompose sqrt m).scale.Z =
      sqrt (m.M31 * m.M31 + m.M32 * m.M32 + m.M33 * m.M33) := by
    rw [hZ, hB2, if_pos p3]
  have hk : 0 < 1 / (sqrt (m.M31 * m.M31 + m.M32 * m.M32 + m.M33 * m.M33) *
      sqrt (m.M11 * m.M11 + m.M12 * m.M12 + m.M13 * m.M13)) :=
    one_div_pos.mpr (mul_pos p3 p1)
  have hL := LengthSquared_nonneg (Vector3.Cross m.GetBackward m.GetRight)
  have hRnn : 0 ≤ Vector3.Dot (Decompose sqrt m).rotation.GetRight m.GetRight := by
    rw [hR]
    exact mul_nonneg p1.le (mul_nonneg (mul_self_nonneg _) hL)
  have key : ∀ a c d : K, a ≠ 0 → c ≠ 0 →
      a * (1 / (c * a) * (1 / (c * a)) * (c * c * (a * a) - d * d)) =
        a * (1 - d / (a * c) * (d / (a * c))) := by
    intro a c d ha hc
    field_simp
    ring
  have e1 : m.GetRight.LengthSquared =
      sqrt (m.M11 * m.M11 + m.M12 * m.M12 + m.M13 * m.M13) *
        sqrt (m.M11 * m.M11 + m.M12 * m.M12 + m.M13 * m.M13) := hsq1.symm
  have e3 : m.GetBackward.LengthSquared =
      sqrt (m.M31 * m.M31 + m.M32 * m.M32 + m.M33 * m.M33) *
        sqrt (m.M31 * m.M31 + m.M32 * m.M32 + m.M33 * m.M33) := hsq3.symm
  have ed : Vector3.Dot m.GetBackward m.GetRight = Vector3.Dot m.GetRight m.GetBackward := by
    simp only [Vector3.Dot, GetBackward, GetRight]
    ring
  have hRcos : Vector3.Dot (Decompose sqrt m).rotation.GetRight m.GetRight =
        sqrt (m.M11 * m.M11 + m.M12 * m.M12 + m.M13 * m.M13) *
          (1 - (Vector3.Dot m.GetRight m.GetBackward /
              (sqrt (m.M11 * m.M11 + m.M12 * m.M12 + m.M13 * m.M13) *
                sqrt (m.M31 * m.M31 + m.M32 * m.M32 + m.M33 * m.M33))) *
            (Vector3.Dot m.GetRight m.GetBackward /
              (sqrt (m.M11 * m.M11 + m.M12 * m.M12 + m.M13 * m.M13) *
                sqrt (m.M31 * m.M31 + m.M32 * m.M32 + m.M33 * m.M33)))) := by
    rw [hR, LengthSquared_Cross, e1, e3, ed]
    exact key _ _ _ h1 h3
  have hXiff : (Decompose sqrt m).scale.X =
      -sqrt (m.M11 * m.M11 + m.M12 * m.M12 + m.M13 * m.M13) ↔
      Vector3.Cross m.GetBackward m.GetRight = ⟨0, 0, 0⟩ := by
    rw [← LengthSquared_eq_zero]
    constructor
    · intro h
      by_contra hne
      have hpos : 0 < (Vector3.Cross m.GetBackward m.GetRight).LengthSquared :=
        lt_of_le_of_ne hL (Ne.symm hne)
      have hdot : Vector3.Dot (Decompose sqrt m).rotation.GetRight m.GetRight > 0 := by
        rw [hR]
        exact mul_pos p1 (mul_pos (mul_pos hk hk) hpos)
      rw [hX, if_pos hdot] at h
      linarith
    · intro h
      have hdot : ¬ Vector3.Dot (Decompose sqrt m).rotation.GetRight m.GetRight > 0 := by
        rw [hR, h, mul_zero, mul_zero]
        exact lt_irrefl 0
      rw [hX, if_neg hdot]
  refine ⟨⟨hB2, p3, hZ2⟩, ⟨hRcos, hRnn⟩, hXiff, ?_⟩
  intro hne
  refine ⟨?_, hZ2⟩
  have hpos : 0 < (Vector3.Cross m.GetBackward m.GetRight).LengthSquared :=
    lt_of_le_of_ne hL (fun h => hne ((LengthSquared_eq_zero _).mp h.symm))
  have hdot : Vector3.Dot (Decompose sqrt m).rotation.GetRight m.GetRight > 0 := by
    rw [hR]
    exact mul_pos p1 (mul_pos (mul_pos hk hk) hpos)
  rw [hX, if_pos hdot]

theorem Decompose_Y_only_reflection_witness :
    Vector3.Cross shearedMatrix.GetBackward shearedMatrix.GetRight ≠ ⟨0, 0, 0⟩ ∧
      (Decompose Rat.sqrt shearedMatrix).scale.X =
        Rat.sqrt (shearedMatrix.M11 * shearedMatrix.M11 + shearedMatrix.M12 * shearedMatrix.M12 +
          shearedMatrix.M13 * shearedMatrix.M13) ∧
      (Decompose Rat.sqrt shearedMatrix).scale.Z =
        Rat.sqrt (shearedMatrix.M31 * shearedMatrix.M31 + shearedMatrix.M32 * shearedMatrix.M32 +
          shearedMatrix.M33 * shearedMatrix.M33) :=
  ⟨by norm_num [shearedMatrix, Vector3.Cross, GetBackward, GetRight],
   (Decompose_Y_only_reflection Rat.sqrt shearedMatrix Rat.sqrt_nonneg
      (by norm_num [shearedMatrix, Rat_sqrt_one])
      (by norm_num [shearedMatrix, Rat_sqrt_one])
      (by norm_num [shearedMatrix, Rat_sqrt_one])
      (by norm_num [shearedMatrix, Rat_sqrt_one])
      (by norm_num [shearedMatrix, Rat_sqrt_one])).2.2.2
     (by norm_num [shearedMatrix, Vector3.Cross, GetBackward, GetRight])⟩

/-- C23: `Skew` never divides by zero once its assertion passes.  For every
angle, `rotationVec` and `transVec`: `rv0 = |rotationVec|² + rv1²` and
`rr0 = rv0 * cos(angle) - rv1 * sin(angle)`; `rv0 = 0` forces `rotationVec = 0`,
`rv1 = 0` and `rr0 = 0`; so whenever `rr0 ≥ 1e-6` (equivalently, whenever `Skew`
writes a matrix) both denominators `rr0` and `rv0` are non-zero. -/
theorem Skew_denominators (cos sin : K → K) (normalize : Vector3 K → Vector3 K) (angle : K)
    (rotationVec transVec : Vector3 K) :
    SkewRv0 normalize rotationVec transVec =
      rotationVec.LengthSquared +
        SkewRv1 normalize rotationVec transVec * SkewRv1 normalize rotationVec transVec ∧
    SkewRr0 cos sin normalize angle rotationVec transVec =
      SkewRv0 normalize rotationVec transVec * cos angle -
        SkewRv1 normalize rotationVec transVec * sin angle ∧
    (SkewRv0 normalize rotationVec transVec = 0 →
      rotationVec = ⟨0, 0, 0⟩ ∧ SkewRv1 normalize rotationVec transVec = 0 ∧
      SkewRr0 cos sin normalize angle rotationVec transVec = 0) ∧
    (1 / 1000000 ≤ SkewRr0 cos sin normalize angle rotationVec transVec →
      SkewRr0 cos sin normalize angle rotationVec transVec ≠ 0 ∧
      SkewRv0 normalize rotationVec transVec ≠ 0) ∧
    ((Skew cos sin normalize angle rotationVec transVec).isSome = true →
      SkewRr0 cos sin normalize angle rotationVec transVec ≠ 0 ∧
      SkewRv0 normalize rotationVec transVec ≠ 0) := by
  have hrv0 := SkewRv0_eq normalize rotationVec transVec
  have hrr0 : SkewRr0 cos sin normalize angle rotationVec transVec =
      SkewRv0 normalize rotationVec transVec * cos angle -
        SkewRv1 normalize rotationVec transVec * sin angle := rfl
  have hzero : SkewRv0 normalize rotationVec transVec = 0 →
      rotationVec = ⟨0, 0, 0⟩ ∧ SkewRv1 normalize rotationVec transVec = 0 ∧
      SkewRr0 cos sin normalize angle rotationVec transVec = 0 := by
    intro h0
    have hL := LengthSquared_nonneg rotationVec
    have hs := mul_self_nonneg (SkewRv1 normalize rotationVec transVec)
    rw [hrv0] at h0
    have hl0 : rotationVec.LengthSquared = 0 := by linarith
    have hs0 : SkewRv1 normalize rotationVec transVec *
        SkewRv1 normalize rotationVec transVec = 0 := by linarith
    have hv1 : SkewRv1 normalize rotationVec transVec = 0 := mul_self_eq_zero.mp hs0
    refine ⟨(LengthSquared_eq_zero _).mp hl0, hv1, ?_⟩
    rw [hrr0, hrv0, hl0, hv1]
    ring
  have hne : 1 / 1000000 ≤ SkewRr0 cos sin normalize angle rotationVec transVec →
      SkewRr0 cos sin normalize angle rotationVec transVec ≠ 0 ∧
      SkewRv0 normalize rotationVec transVec ≠ 0 := by
    intro h
    have hpos : 0 < SkewRr0 cos sin normalize angle rotationVec transVec :=
      lt_of_lt_of_le (by norm_num) h
    refine ⟨ne_of_gt hpos, ?_⟩
    intro h0
    rw [(hzero h0).2.2] at hpos
    exact lt_irrefl 0 hpos
  exact ⟨hrv0, hrr0, hzero, hne,
    fun h => hne ((Skew_isSome_iff cos sin normalize angle rotationVec transVec).mp h)⟩

/-- C24: the per-axis rotation builders agree with the general axis builder:
for every angle, `RotationX a = RotationAxis (1,0,0) a`,
`RotationY a = RotationAxis (0,1,0) a` and `RotationZ a = RotationAxis (0,0,1) a`,
entry for entry (for `RotationY`, `-sin` at `M13` and `+sin` at `M31`). -/
theorem Rotation_axes_eq_RotationAxis (cos sin : K → K) (a : K) :
    RotationX cos sin a = RotationAxis cos sin ⟨1, 0, 0⟩ a ∧
    RotationY cos sin a = RotationAxis cos sin ⟨0, 1, 0⟩ a ∧
    RotationZ cos sin a = RotationAxis cos sin ⟨0, 0, 1⟩ a ∧
    (RotationY cos sin a).M13 = -sin a ∧ (RotationY cos sin a).M31 = sin a := by
  refine ⟨?_, ?_, ?_, rfl, rfl⟩
  · ext <;> simp only [RotationX, RotationAxis, Identity] <;> ring
  · ext <;> simp only [RotationY, RotationAxis, Identity] <;> ring
  · ext <;> simp only [RotationZ, RotationAxis, Identity] <;> ring

/-- C25: for every affine matrix (`M14 = M24 = M34 = 0`, `M44 = 1`) the full
determinant `GetDeterminant` equals `RotDeterminant`, which is the determinant
of the 3x3 linear block and does not read the translation row. -/
theorem GetDeterminant_affine (m : Matrix K) (h14 : m.M14 = 0) (h24 : m.M24 = 0)
    (h34 : m.M34 = 0) (h44 : m.M44 = 1) :
    m.GetDeterminant = m.RotDeterminant ∧
    m.RotDeterminant =
      Matrix.det !![m.M11, m.M12, m.M13; m.M21, m.M22, m.M23; m.M31, m.M32, m.M33] ∧
    (∀ x y z : K,
      GetDeterminant { m with M41 := x, M42 := y, M43 := z } = m.GetDeterminant) := by
  refine ⟨GetDeterminant_of_affine m h14 h24 h34 h44, RotDeterminant_eq_det3 m, ?_⟩
  intro x y z
  rw [GetDeterminant_of_affine m h14 h24 h34 h44,
    GetDeterminant_of_affine { m with M41 := x, M42 := y, M43 := z } h14 h24 h34 h44]
  simp only [RotDeterminant, Values_00, Values_01, Values_02, Values_10, Values_11,
    Values_12, Values_20, Values_21, Values_22]

theorem GetDeterminant_affine_witness :
    mirrorMatrix.GetDeterminant = mirrorMatrix.RotDeterminant ∧
      mirrorMatrix.RotDeterminant =
        Matrix.det !![mirrorMatrix.M11, mirrorMatrix.M12, mirrorMatrix.M13;
          mirrorMatrix.M21, mirrorMatrix.M22, mirrorMatrix.M23;
          mirrorMatrix.M31, mirrorMatrix.M32, mirrorMatrix.M33] ∧
      (∀ x y z : ℚ,
        GetDeterminant { mirrorMatrix with M41 := x, M42 := y, M43 := z } =
          mirrorMatrix.GetDeterminant) :=
  GetDeterminant_affine mirrorMatrix rfl rfl rfl rfl

end Matrix

end FlaxEngine
